import Mathlib

/-!
# VirtSpy: a shallow embedding of `virt_spy.c` / `virt_spy.h`

The six integer-valued probes and the vendor probe of VirtSpy are embedded as
pure functions of what the environment hands them:

* the CPUID probes take the register quad the `cpuid` instruction gives for their leaf;
  `detect_nested_virtualization` also takes the highest extended leaf of the CPU, which
  decides whether `__get_cpuid` runs the instruction at all, and the indeterminate value
  its uninitialised local `ecx` happens to hold on entry;
* the four command scanners take the result of `popen` (`none` for `NULL`,
  `some bytes` for a stream that will deliver `bytes`) and the indeterminate
  value their uninitialised flag variable happens to hold on entry.

Bytes and 32-bit registers are natural numbers; C strings are lists of bytes in
which a read past the end of the list yields the terminating NUL.
-/

namespace VirtSpy

/-! ## Data model -/

/-- The four `unsigned int` locals `eax, ebx, ecx, edx` after the CPU query. -/
structure RegisterQuad where
  eax : Nat
  ebx : Nat
  ecx : Nat
  edx : Nat
deriving DecidableEq, Repr

/-- The `#if defined(_MSC_VER) ... #elif defined(__GNUC__)` selection. -/
inductive Toolchain where
  | msc_ver
  | gnuc
deriving DecidableEq, Repr

/-- How a call of a probe ends: `return v`, or `exit(status)` of the whole process. -/
inductive Outcome where
  | ret (v : Int)
  | exit (status : Int)
deriving DecidableEq, Repr

/-! ## Result codes (`virt_spy.h`, lines 15-31) -/

def VM_DETECTED : Int := 1
def NO_VM_DETECTED : Int := -1

def NESTED_VTX_DETECTED : Int := 2
def NO_NESTED_VTX_DETECTED : Int := -2

def VTX_NW_DEV_DETECTED : Int := 3
def NO_VTX_NW_DEV_DETECTED : Int := -3

def VTX_BLK_DEV_DETECTED : Int := 4
def NO_VTX_BLK_DEV_DETECTED : Int := -4

def VTX_KERN_MODS_DETECTED : Int := 5
def NO_VTX_KERN_MODS_DETECTED : Int := -5

def VTX_PCI_DEV_DETECTED : Int := 6
def NO_VTX_PCI_DEV_DETECTED : Int := -6

/-! ## C library functions used by the probes -/

/-- The bytes of a C string literal, without its terminating NUL. -/
def lit (s : String) : List Nat := s.toList.map Char.toNat

/-- The four bytes of a 32-bit value in memory order on a little-endian machine. -/
def le_bytes (x : Nat) : List Nat :=
  [x % 256, x / 2 ^ 8 % 256, x / 2 ^ 16 % 256, x / 2 ^ 24 % 256]

/-- The 32-bit value whose little-endian memory image is the first four bytes of `bs`. -/
def load32 (bs : List Nat) : Nat :=
  bs.getD 0 0 + 2 ^ 8 * bs.getD 1 0 + 2 ^ 16 * bs.getD 2 0 + 2 ^ 24 * bs.getD 3 0

/-- Function `memcpy(buf + off, src, src.length)` on a buffer held as a list of bytes. -/
def memcpy (buf : List Nat) (off : Nat) (src : List Nat) : List Nat :=
  buf.take off ++ src ++ buf.drop (off + src.length)

/-- Function `strncmp(s1, s2, n)`: compare at most `n` bytes as unsigned chars, stopping
after a NUL. A read past the end of a list yields NUL. -/
def strncmp : List Nat → List Nat → Nat → Int
  | _, _, 0 => 0
  | s1, s2, n + 1 =>
    let c1 := s1.headD 0
    let c2 := s2.headD 0
    if c1 ≠ c2 then (c1 : Int) - (c2 : Int)
    else if c1 = 0 then 0
    else strncmp s1.tail s2.tail n

/-- The C string held in an array: its bytes up to, not including, the first NUL. -/
def c_str (p : List Nat) : List Nat := p.takeWhile (fun b => b != 0)

/-- Search for `needle` at every position of `hay`, left to right. -/
def find_sub : List Nat → List Nat → Bool
  | [], needle => needle.isPrefixOf []
  | c :: hay, needle => needle.isPrefixOf (c :: hay) || find_sub hay needle

/-- Function `strstr(haystack, needle) != NULL` on NUL-terminated arrays. -/
def strstr (haystack needle : List Nat) : Bool :=
  find_sub (c_str haystack) (c_str needle)

/-- The characters one `fgets` call stores from `stream` when `n` more fit: it stops
after a newline, at end of file, or when `n` characters are stored; the second
component is what is left of the stream. -/
def fgets_aux : List Nat → Nat → List Nat × List Nat
  | [], _ => ([], [])
  | c :: s, n =>
    if n = 0 then ([], c :: s)
    else if c = 10 then ([c], s)
    else ((c :: (fgets_aux s (n - 1)).1), (fgets_aux s (n - 1)).2)

/-- Function `fgets(path, size, file_ptr)`: `none` is `NULL` (end of file before any
character); otherwise the array contents (the characters read, then NUL) and the rest
of the stream. -/
def fgets (size : Nat) (stream : List Nat) : Option (List Nat × List Nat) :=
  match stream with
  | [] => none
  | c :: s => some ((fgets_aux (c :: s) (size - 1)).1 ++ [0], (fgets_aux (c :: s) (size - 1)).2)

/-! ## CPUID probes (`virt_spy.c`, lines 19-135) -/

/-- Probe `detect_vm` (lines 19-42). `1 << 31` is the `int` with only the sign bit set;
the `&` converts it to `unsigned int`, giving `2^31`. -/
def detect_vm (r : RegisterQuad) : Int :=
  if r.ecx &&& ((1 <<< 31) % 2 ^ 32) ≠ 0 then VM_DETECTED else NO_VM_DETECTED

/-- GCC's `__get_cpuid(leaf, &eax, &ebx, &ecx, &edx)` of `<cpuid.h>`. `maxlevel` is what
`__get_cpuid_max(leaf & 0x80000000, 0)` reports, the highest leaf of the range `leaf` lies
in, and `cpu` the quad the `cpuid` instruction gives for `leaf`. When `maxlevel` is 0 or
below `leaf` the function returns 0 and stores nothing (`none`); otherwise it runs the
instruction, stores the quad and returns 1 (`some`). -/
def __get_cpuid (leaf maxlevel : Nat) (cpu : RegisterQuad) : Option RegisterQuad :=
  if maxlevel = 0 ∨ maxlevel < leaf then none else some cpu

/-- Probe `detect_nested_virtualization` (lines 121-135), `__GNUC__` branch. `maxlevel` is
the highest extended leaf of the CPU and `cpu` the quad it gives for leaf 0x8000001E;
`ecx` is the indeterminate initial value of the local, which the source declares without
an initialiser. Line 131 discards the return value of `__get_cpuid`, so line 133 tests the
stored ECX when the query ran and the untouched local when it did not. -/
def detect_nested_virtualization (maxlevel : Nat) (cpu : RegisterQuad) (ecx : Nat) : Int :=
  let ecx :=
    match __get_cpuid 0x8000001E maxlevel cpu with
    | some stored => stored.ecx
    | none => ecx
  if ecx &&& (1 <<< 5) ≠ 0 then NESTED_VTX_DETECTED else NO_NESTED_VTX_DETECTED

/-- Array `cpu_info` after `__cpuid(cpu_info, eax)` (line 85): EAX, EBX, ECX, EDX. -/
def cpu_info (r : RegisterQuad) : List Nat := [r.eax, r.ebx, r.ecx, r.edx]

/-- The contents of `char hypervisor_vendor[13]` when the comparisons start:
lines 50 and 87-90 under `_MSC_VER`, lines 50 and 107-109 under `__GNUC__`. The array
starts as thirteen zero bytes; the store `*((unsigned int*)&hypervisor_vendor[k]) = x` of
the `_MSC_VER` branch writes the four bytes of `x` at offset `k`, as `memcpy` does. -/
def hypervisor_vendor : Toolchain → RegisterQuad → List Nat
  | .msc_ver, r =>
    let hv := List.replicate 13 0
    let hv := memcpy hv 0 (le_bytes ((cpu_info r).getD 1 0))
    let hv := memcpy hv 4 (le_bytes ((cpu_info r).getD 3 0))
    let hv := memcpy hv 8 (le_bytes ((cpu_info r).getD 2 0))
    hv.set 12 0
  | .gnuc, r =>
    let hv := List.replicate 13 0
    let hv := memcpy hv 0 (le_bytes r.ebx)
    let hv := memcpy hv 4 (le_bytes r.ecx)
    memcpy hv 8 (le_bytes r.edx)

def REPORT_KVM : String := "Running on KVM (Kernel-based Virtual Machine) hypervisor.\n"
def REPORT_VMWARE : String := "Running on VMware Hypervisor.\n"
def REPORT_HYPERV : String := "Running on Microsoft Hyper-V.\n"
def REPORT_XEN : String := "Running on Xen Hypervisor.\n"
def REPORT_VBOX : String := "Running on Oracle VirtualBox Hypervisor.\n"
def REPORT_UNKNOWN : String := "Unknown Hypervisor.\n"

/-- The `if / else if` chain of lines 92-97, repeated verbatim at lines 111-116. -/
def vendor_chain (hv : List Nat) : String :=
  if strncmp hv (lit "KVM") 3 = 0 then REPORT_KVM
  else if strncmp hv (lit "VMware") 6 = 0 then REPORT_VMWARE
  else if strncmp hv (lit "Microsoft Hv") 12 = 0 then REPORT_HYPERV
  else if strncmp hv (lit "XenVMM") 6 = 0 then REPORT_XEN
  else if strncmp hv (lit "VBoxVBox") 8 = 0 then REPORT_VBOX
  else REPORT_UNKNOWN

/-- Probe `get_hypervisor_vendor` (lines 44-119), per toolchain branch. -/
def get_hypervisor_vendor (tc : Toolchain) (r : RegisterQuad) : String :=
  vendor_chain (hypervisor_vendor tc r)

/-! ### The chain read as a table -/

/-- One row of the comparison chain: signature, bytes compared, report. -/
structure VendorEntry where
  sig : List Nat
  n : Nat
  report : String
deriving DecidableEq, Repr

/-- The rows of the chain, in source order. -/
def vendor_table : List VendorEntry :=
  [⟨lit "KVM", 3, REPORT_KVM⟩,
   ⟨lit "VMware", 6, REPORT_VMWARE⟩,
   ⟨lit "Microsoft Hv", 12, REPORT_HYPERV⟩,
   ⟨lit "XenVMM", 6, REPORT_XEN⟩,
   ⟨lit "VBoxVBox", 8, REPORT_VBOX⟩]

/-- Whether the comparison of row `e` succeeds on the buffer. -/
def entry_hit (hv : List Nat) (e : VendorEntry) : Bool :=
  strncmp hv e.sig e.n == 0

/-- First-match lookup in an arbitrary ordering of rows. -/
def first_match (table : List VendorEntry) (hv : List Nat) : String :=
  match table.find? (entry_hit hv) with
  | some e => e.report
  | none => REPORT_UNKNOWN

/-! ## Command scanners (`virt_spy.c`, lines 137-313) -/

/-- One `fgets` call splits the stream: what it stored, then what it left. -/
theorem fgets_aux_append (s : List Nat) (n : Nat) :
    (fgets_aux s n).1 ++ (fgets_aux s n).2 = s := by
  induction s generalizing n with
  | nil => rfl
  | cons c s ih =>
    unfold fgets_aux
    by_cases hn : n = 0
    · simp [hn]
    · by_cases hc : c = 10
      · simp [hn, hc]
      · simp [hn, hc, ih]

/-- With room for at least one character, `fgets` stores one from a stream not at end of file. -/
theorem fgets_aux_fst_ne_nil (c : Nat) (s : List Nat) (n : Nat) (hn : n ≠ 0) :
    (fgets_aux (c :: s) n).1 ≠ [] := by
  unfold fgets_aux
  by_cases hc : c = 10 <;> simp [hn, hc]

/-- A successful `fgets` into an array of two or more bytes consumes part of the stream. -/
theorem fgets_rest_length (size : Nat) (stream path rest : List Nat)
    (h : fgets size stream = some (path, rest)) (hs : 2 ≤ size) :
    rest.length < stream.length := by
  cases stream with
  | nil => simp [fgets] at h
  | cons c s =>
    simp only [fgets, Option.some.injEq, Prod.mk.injEq] at h
    have h1 := fgets_aux_append (c :: s) (size - 1)
    have h2 := fgets_aux_fst_ne_nil c s (size - 1) (by omega)
    have h3 := congrArg List.length h1
    rw [List.length_append] at h3
    have h4 : 0 < (fgets_aux (c :: s) (size - 1)).1.length := List.length_pos.mpr h2
    rw [← h.2]
    omega

set_option linter.unusedVariables false in
/-- The loop `while (fgets(path, sizeof(path), file_ptr) != NULL)` with `char path[1035]`,
shared in shape by the four scanners: `hit` is the `strstr` disjunction of the probe, `flag`
the current value of its `bool` variable. A hit sets the flag and breaks; a miss clears it.
The value is that of the flag when the loop is left. -/
def scan_lines (hit : List Nat → Bool) (stream : List Nat) (flag : Bool) : Bool :=
  match h : fgets 1035 stream with
  | none => flag
  | some (path, rest) =>
    if hit path then true
    else scan_lines hit rest false
termination_by stream.length
decreasing_by exact fgets_rest_length 1035 stream path rest h (by decide)

/-- Probe `detect_virtual_network_devices` (lines 139-179). `file_ptr` is what `popen`
returned; `virt_nw_detected` is the indeterminate initial value of the local, which the
source declares without an initialiser. -/
def detect_virtual_network_devices (file_ptr : Option (List Nat)) (virt_nw_detected : Bool) :
    Outcome :=
  match file_ptr with
  | none => Outcome.exit 1
  | some stream =>
    let virt_nw_detected := scan_lines
      (fun path => strstr path (lit "eth") || strstr path (lit "ens") || strstr path (lit "veth"))
      stream virt_nw_detected
    if !virt_nw_detected then Outcome.ret NO_VTX_NW_DEV_DETECTED
    else Outcome.ret VTX_NW_DEV_DETECTED

/-- Probe `detect_virtual_block_devices` (lines 182-223). -/
def detect_virtual_block_devices (file_ptr : Option (List Nat)) (virt_blk_dv_detected : Bool) :
    Outcome :=
  match file_ptr with
  | none => Outcome.exit 1
  | some stream =>
    let virt_blk_dv_detected := scan_lines
      (fun path => strstr path (lit "vda") || strstr path (lit "xvda"))
      stream virt_blk_dv_detected
    if !virt_blk_dv_detected then Outcome.ret NO_VTX_BLK_DEV_DETECTED
    else Outcome.ret VTX_BLK_DEV_DETECTED

/-- Probe `check_kernel_modules` (lines 227-268). -/
def check_kernel_modules (file_ptr : Option (List Nat)) (kernel_mod_detected : Bool) :
    Outcome :=
  match file_ptr with
  | none => Outcome.exit 1
  | some stream =>
    let kernel_mod_detected := scan_lines
      (fun path => strstr path (lit "kvm") || strstr path (lit "vbox"))
      stream kernel_mod_detected
    if !kernel_mod_detected then Outcome.ret NO_VTX_KERN_MODS_DETECTED
    else Outcome.ret VTX_KERN_MODS_DETECTED

/-- Probe `detect_virtual_pci_devices` (lines 271-313). -/
def detect_virtual_pci_devices (file_ptr : Option (List Nat)) (virt_pci_dev_detected : Bool) :
    Outcome :=
  match file_ptr with
  | none => Outcome.exit 1
  | some stream =>
    let virt_pci_dev_detected := scan_lines
      (fun path => strstr path (lit "1002") || strstr path (lit "8086"))
      stream virt_pci_dev_detected
    if !virt_pci_dev_detected then Outcome.ret NO_VTX_PCI_DEV_DETECTED
    else Outcome.ret VTX_PCI_DEV_DETECTED

/-! ## Vocabulary of the specification -/

/-- The lines of a command output, each with its newline when it has one: a line ends
after a newline byte or at the end of the output. -/
def lines : List Nat → List (List Nat)
  | [] => []
  | c :: s =>
    if c = 10 then [c] :: lines s
    else
      match lines s with
      | [] => [[c]]
      | l :: ls => (c :: l) :: ls

/-- The six integer-valued probes. -/
inductive Probe where
  | presence
  | nested
  | network
  | block
  | kernel_modules
  | pci
deriving DecidableEq, Repr

/-- What a probe call depends on: the register quad the CPU gives for the probe's leaf;
the result of `popen` together with the indeterminate initial value of the flag variable;
and, for the nested probe, the highest extended leaf of the CPU and the indeterminate
initial value of the local `ecx`. -/
structure ProbeInput where
  regs : RegisterQuad
  file_ptr : Option (List Nat)
  flag : Bool
  ext_maxlevel : Nat
  ecx_local : Nat

/-- A call of one of the six probes. -/
def run_probe : Probe → ProbeInput → Outcome
  | .presence, i => Outcome.ret (detect_vm i.regs)
  | .nested, i =>
    Outcome.ret (detect_nested_virtualization i.ext_maxlevel i.regs i.ecx_local)
  | .network, i => detect_virtual_network_devices i.file_ptr i.flag
  | .block, i => detect_virtual_block_devices i.file_ptr i.flag
  | .kernel_modules, i => check_kernel_modules i.file_ptr i.flag
  | .pci, i => detect_virtual_pci_devices i.file_ptr i.flag

/-- The number `k` of a probe in `virt_spy.h`: its pair of codes is `+k` and `-k`. -/
def probe_code : Probe → Int
  | .presence => 1
  | .nested => 2
  | .network => 3
  | .block => 4
  | .kernel_modules => 5
  | .pci => 6

/-- The literal substrings of each scanner. -/
def NETWORK_PATTERNS : List (List Nat) := [lit "eth", lit "ens", lit "veth"]
def BLOCK_PATTERNS : List (List Nat) := [lit "vda", lit "xvda"]
def KERNEL_MODULE_PATTERNS : List (List Nat) := [lit "kvm", lit "vbox"]
def PCI_PATTERNS : List (List Nat) := [lit "1002", lit "8086"]

/-- Some line of the output contains one of the patterns as a contiguous substring. -/
def some_line_contains (pats : List (List Nat)) (out : List Nat) : Prop :=
  ∃ l ∈ lines out, ∃ p ∈ pats, p <:+: l

instance (pats : List (List Nat)) (out : List Nat) : Decidable (some_line_contains pats out) := by
  unfold some_line_contains
  infer_instance

/-! ## The stream handle -/

/-- A call a scanner makes on the stream `popen` gave it. -/
inductive StreamEvent where
  | fgets_call
  | fclose_call
deriving DecidableEq, Repr

set_option linter.unusedVariables false in
/-- The loop of `scan_lines` together with the calls it makes on the stream, in order: one
`fgets` per evaluation of the loop condition, the last of them either the one that
returns `NULL` or the one whose line is a hit (the `break`). -/
def scan_lines_traced (hit : List Nat → Bool) (stream : List Nat) (flag : Bool) :
    Bool × List StreamEvent :=
  match h : fgets 1035 stream with
  | none => (flag, [StreamEvent.fgets_call])
  | some (path, rest) =>
    if hit path then (true, [StreamEvent.fgets_call])
    else
      let r := scan_lines_traced hit rest false
      (r.1, StreamEvent.fgets_call :: r.2)
termination_by stream.length
decreasing_by exact fgets_rest_length 1035 stream path rest h (by decide)

/-- Probe `detect_virtual_network_devices` (lines 139-179) with its calls on the stream:
nothing when `popen` failed, otherwise the calls of the loop and then the `fclose` of
line 173 (no match) or of line 177 (match), each followed by the `return`. -/
def detect_virtual_network_devices_traced (file_ptr : Option (List Nat))
    (virt_nw_detected : Bool) : Outcome × List StreamEvent :=
  match file_ptr with
  | none => (Outcome.exit 1, [])
  | some stream =>
    let r := scan_lines_traced
      (fun path => strstr path (lit "eth") || strstr path (lit "ens") || strstr path (lit "veth"))
      stream virt_nw_detected
    if !r.1 then (Outcome.ret NO_VTX_NW_DEV_DETECTED, r.2 ++ [StreamEvent.fclose_call])
    else (Outcome.ret VTX_NW_DEV_DETECTED, r.2 ++ [StreamEvent.fclose_call])

/-- Probe `detect_virtual_block_devices` (lines 182-223) with its calls on the stream
(`fclose` at line 216 or line 221). -/
def detect_virtual_block_devices_traced (file_ptr : Option (List Nat))
    (virt_blk_dv_detected : Bool) : Outcome × List StreamEvent :=
  match file_ptr with
  | none => (Outcome.exit 1, [])
  | some stream =>
    let r := scan_lines_traced
      (fun path => strstr path (lit "vda") || strstr path (lit "xvda"))
      stream virt_blk_dv_detected
    if !r.1 then (Outcome.ret NO_VTX_BLK_DEV_DETECTED, r.2 ++ [StreamEvent.fclose_call])
    else (Outcome.ret VTX_BLK_DEV_DETECTED, r.2 ++ [StreamEvent.fclose_call])

/-- Probe `check_kernel_modules` (lines 227-268) with its calls on the stream (`fclose` at
line 261 or line 266). -/
def check_kernel_modules_traced (file_ptr : Option (List Nat))
    (kernel_mod_detected : Bool) : Outcome × List StreamEvent :=
  match file_ptr with
  | none => (Outcome.exit 1, [])
  | some stream =>
    let r := scan_lines_traced
      (fun path => strstr path (lit "kvm") || strstr path (lit "vbox"))
      stream kernel_mod_detected
    if !r.1 then (Outcome.ret NO_VTX_KERN_MODS_DETECTED, r.2 ++ [StreamEvent.fclose_call])
    else (Outcome.ret VTX_KERN_MODS_DETECTED, r.2 ++ [StreamEvent.fclose_call])

/-- Probe `detect_virtual_pci_devices` (lines 271-313) with its calls on the stream
(`fclose` at line 306 or line 311). -/
def detect_virtual_pci_devices_traced (file_ptr : Option (List Nat))
    (virt_pci_dev_detected : Bool) : Outcome × List StreamEvent :=
  match file_ptr with
  | none => (Outcome.exit 1, [])
  | some stream =>
    let r := scan_lines_traced
      (fun path => strstr path (lit "1002") || strstr path (lit "8086"))
      stream virt_pci_dev_detected
    if !r.1 then (Outcome.ret NO_VTX_PCI_DEV_DETECTED, r.2 ++ [StreamEvent.fclose_call])
    else (Outcome.ret VTX_PCI_DEV_DETECTED, r.2 ++ [StreamEvent.fclose_call])

/-- The state of a stream handle: open, closed, or used after it was closed. -/
inductive HandleState where
  | is_open
  | closed
  | misused
deriving DecidableEq, Repr

/-- The effect of one call on the handle: a read keeps an open stream open, a close closes
it, and any call on a stream that is not open is a misuse. -/
def handle_step : HandleState → StreamEvent → HandleState
  | .is_open, .fgets_call => .is_open
  | .is_open, .fclose_call => .closed
  | .closed, _ => .misused
  | .misused, _ => .misused

/-- The state of a freshly opened stream after a sequence of calls. -/
def handle_after (trace : List StreamEvent) : HandleState :=
  trace.foldl handle_step HandleState.is_open

/-! ## Scanners with the redundant patterns left out -/

/-- A network scanner that tests each line only for "eth" or "ens". -/
def detect_virtual_network_devices_eth_ens (file_ptr : Option (List Nat)) (flag : Bool) :
    Outcome :=
  match file_ptr with
  | none => Outcome.exit 1
  | some stream =>
    let flag := scan_lines (fun path => strstr path (lit "eth") || strstr path (lit "ens"))
      stream flag
    if !flag then Outcome.ret NO_VTX_NW_DEV_DETECTED
    else Outcome.ret VTX_NW_DEV_DETECTED

/-- A block scanner that tests each line only for "vda". -/
def detect_virtual_block_devices_vda (file_ptr : Option (List Nat)) (flag : Bool) : Outcome :=
  match file_ptr with
  | none => Outcome.exit 1
  | some stream =>
    let flag := scan_lines (fun path => strstr path (lit "vda")) stream flag
    if !flag then Outcome.ret NO_VTX_BLK_DEV_DETECTED
    else Outcome.ret VTX_BLK_DEV_DETECTED

/-! ## A line longer than the array -/

/-- One line of 1037 bytes: 1033 times "a", then "eth" and the newline. -/
def straddling_output : List Nat := List.replicate 1033 97 ++ lit "eth\n"

/-- A scanner call that returned and released its stream: it ends in `return`, and its
calls on the stream are one or more reads followed by exactly one close, which leaves the
handle closed and never used after the close. -/
def released_once (r : Outcome × List StreamEvent) : Prop :=
  (∃ v : Int, r.1 = Outcome.ret v) ∧
  (∃ n : Nat, r.2 = List.replicate (n + 1) StreamEvent.fgets_call ++ [StreamEvent.fclose_call]) ∧
  r.2.count StreamEvent.fclose_call = 1 ∧
  r.2.getLast? = some StreamEvent.fclose_call ∧
  handle_after r.2 = HandleState.closed

/-! ## Bit tests -/

theorem and_two_pow_ne_zero (x i : Nat) : x &&& 2 ^ i ≠ 0 ↔ x.testBit i = true := by
  rw [Nat.and_two_pow]
  cases x.testBit i <;> simp

theorem detect_vm_eq (r : RegisterQuad) :
    detect_vm r = if r.ecx.testBit 31 then VM_DETECTED else NO_VM_DETECTED := by
  have h : (1 <<< 31) % 2 ^ 32 = 2 ^ 31 := by decide
  unfold detect_vm
  rw [h]
  by_cases hb : r.ecx.testBit 31 = true
  · rw [if_pos ((and_two_pow_ne_zero _ _).mpr hb), if_pos hb]
  · rw [if_neg (fun hc => hb ((and_two_pow_ne_zero _ _).mp hc)), if_neg hb]

/-- The nested probe answers by bit 5 of the word line 133 tests: the ECX the CPU gave
when `__get_cpuid` ran the query, the initial value of the local when it did not. -/
theorem detect_nested_virtualization_eq (maxlevel : Nat) (cpu : RegisterQuad) (ecx : Nat) :
    detect_nested_virtualization maxlevel cpu ecx =
      if (if maxlevel = 0 ∨ maxlevel < 0x8000001E then ecx else cpu.ecx).testBit 5
      then NESTED_VTX_DETECTED else NO_NESTED_VTX_DETECTED := by
  have h : 1 <<< 5 = 2 ^ 5 := by decide
  have key : ∀ w : Nat, (if w &&& 2 ^ 5 ≠ 0 then NESTED_VTX_DETECTED
      else NO_NESTED_VTX_DETECTED) =
      if w.testBit 5 then NESTED_VTX_DETECTED else NO_NESTED_VTX_DETECTED := by
    intro w
    by_cases hb : w.testBit 5 = true
    · rw [if_pos ((and_two_pow_ne_zero _ _).mpr hb), if_pos hb]
    · rw [if_neg (fun hc => hb ((and_two_pow_ne_zero _ _).mp hc)), if_neg hb]
  unfold detect_nested_virtualization __get_cpuid
  rw [h]
  by_cases hm : maxlevel = 0 ∨ maxlevel < 0x8000001E
  · simp only [if_pos hm]
    exact key ecx
  · simp only [if_neg hm]
    exact key cpu.ecx

/-- C1: `detect_vm` returns `VM_DETECTED` (1) exactly when bit 31 of ECX is set and
`NO_VM_DETECTED` (-1) exactly when it is clear; two quads that agree on that bit get the
same result whatever EAX, EBX, EDX and the other bits of ECX hold; ECX = 0x80000000 is
detected and ECX = 0x7FFFFFFF is not. -/
theorem detect_vm_bit31 (r q : RegisterQuad) :
    (detect_vm r = 1 ↔ r.ecx.testBit 31 = true) ∧
    (detect_vm r = -1 ↔ r.ecx.testBit 31 = false) ∧
    (q.ecx.testBit 31 = r.ecx.testBit 31 → detect_vm q = detect_vm r) ∧
    detect_vm ⟨r.eax, r.ebx, 0x80000000, r.edx⟩ = VM_DETECTED ∧
    detect_vm ⟨r.eax, r.ebx, 0x7FFFFFFF, r.edx⟩ = NO_VM_DETECTED := by
  refine ⟨?_, ?_, ?_, ?_, ?_⟩
  · rw [detect_vm_eq]
    cases r.ecx.testBit 31 <;> simp [VM_DETECTED, NO_VM_DETECTED]
  · rw [detect_vm_eq]
    cases r.ecx.testBit 31 <;> simp [VM_DETECTED, NO_VM_DETECTED]
  · intro h
    rw [detect_vm_eq, detect_vm_eq, h]
  · rw [detect_vm_eq]; exact if_pos (show (0x80000000 : Nat).testBit 31 = true by decide)
  · rw [detect_vm_eq]; exact if_neg (show ¬ (0x7FFFFFFF : Nat).testBit 31 = true by decide)

theorem detect_vm_bit31_witness :
    (detect_vm ⟨1, 2, 0x80000000, 3⟩ = 1 ↔ (0x80000000 : Nat).testBit 31 = true) ∧
    detect_vm ⟨7, 7, 0xFFFFFFFF, 7⟩ = detect_vm ⟨1, 2, 0x80000000, 3⟩ :=
  ⟨(detect_vm_bit31 ⟨1, 2, 0x80000000, 3⟩ ⟨7, 7, 0xFFFFFFFF, 7⟩).1,
   (detect_vm_bit31 ⟨1, 2, 0x80000000, 3⟩ ⟨7, 7, 0xFFFFFFFF, 7⟩).2.2.1 (by decide)⟩

/-- When the CPU has leaf 0x8000001E, `detect_nested_virtualization` returns
`NESTED_VTX_DETECTED` (2) exactly when bit 5 of the ECX the CPU gives is set and
`NO_NESTED_VTX_DETECTED` (-2) exactly when it is clear, whatever the local held. -/
theorem detect_nested_virtualization_of_query (maxlevel : Nat) (cpu : RegisterQuad)
    (ecx : Nat) (hmax : 0x8000001E ≤ maxlevel) :
    (detect_nested_virtualization maxlevel cpu ecx = 2 ↔ cpu.ecx.testBit 5 = true) ∧
    (detect_nested_virtualization maxlevel cpu ecx = -2 ↔ cpu.ecx.testBit 5 = false) := by
  have hm : ¬ (maxlevel = 0 ∨ maxlevel < 0x8000001E) := by omega
  rw [detect_nested_virtualization_eq, if_neg hm]
  cases cpu.ecx.testBit 5 <;> simp [NESTED_VTX_DETECTED, NO_NESTED_VTX_DETECTED]

/-- When the CPU's highest extended leaf is below 0x8000001E, `__get_cpuid` stores nothing
and `detect_nested_virtualization` answers by bit 5 of the initial value of its local,
whatever ECX the CPU would give. -/
theorem detect_nested_virtualization_of_failed_query (maxlevel : Nat) (cpu : RegisterQuad)
    (ecx : Nat) (hmax : maxlevel < 0x8000001E) :
    __get_cpuid 0x8000001E maxlevel cpu = none ∧
    (detect_nested_virtualization maxlevel cpu ecx = 2 ↔ ecx.testBit 5 = true) ∧
    (detect_nested_virtualization maxlevel cpu ecx = -2 ↔ ecx.testBit 5 = false) := by
  have hm : maxlevel = 0 ∨ maxlevel < 0x8000001E := Or.inr hmax
  refine ⟨by unfold __get_cpuid; rw [if_pos hm], ?_⟩
  rw [detect_nested_virtualization_eq, if_pos hm]
  cases ecx.testBit 5 <;> simp [NESTED_VTX_DETECTED, NO_NESTED_VTX_DETECTED]

/-- C5: on a CPU whose highest extended leaf is 0x80000008 `__get_cpuid` stores no quad
for leaf 0x8000001E, and `detect_nested_virtualization` answers from the uninitialised
local: with bit 5 set in the garbage (0x20) it returns `NESTED_VTX_DETECTED` although the
ECX the CPU gives (0x50, 0x10, 0x40 or 0) has bit 5 clear, and with the garbage 0 it
returns `NO_NESTED_VTX_DETECTED` on the same quad. On a CPU that has the leaf
(highest extended leaf 0x8000001E or more) the same quads are answered by their own
bit 5. -/
theorem nested_probe_reads_uninitialised_ecx :
    __get_cpuid 0x8000001E 0x80000008
      { eax := 0, ebx := 0, ecx := 0x50, edx := 0 } = none ∧
    (0x50 : Nat).testBit 5 = false ∧
    detect_nested_virtualization 0x80000008
      { eax := 0, ebx := 0, ecx := 0x50, edx := 0 } 0x20 = NESTED_VTX_DETECTED ∧
    detect_nested_virtualization 0x80000008
      { eax := 0, ebx := 0, ecx := 0x10, edx := 0 } 0x20 = NESTED_VTX_DETECTED ∧
    detect_nested_virtualization 0x80000008
      { eax := 0, ebx := 0, ecx := 0x40, edx := 0 } 0x20 = NESTED_VTX_DETECTED ∧
    detect_nested_virtualization 0x80000008
      { eax := 0, ebx := 0, ecx := 0, edx := 0 } 0x20 = NESTED_VTX_DETECTED ∧
    detect_nested_virtualization 0x80000008
      { eax := 0, ebx := 0, ecx := 0x50, edx := 0 } 0 = NO_NESTED_VTX_DETECTED ∧
    detect_nested_virtualization 0x80000008
      { eax := 0, ebx := 0, ecx := 0x20, edx := 0 } 0 = NO_NESTED_VTX_DETECTED ∧
    detect_nested_virtualization 0x8000001F
      { eax := 0, ebx := 0, ecx := 0x50, edx := 0 } 0x20 = NO_NESTED_VTX_DETECTED ∧
    detect_nested_virtualization 0x8000001F
      { eax := 0, ebx := 0, ecx := 0x20, edx := 0 } 0 = NESTED_VTX_DETECTED := by
  decide

/-! ## Vendor signature -/

theorem hypervisor_vendor_gnuc_layout (r : RegisterQuad) :
    hypervisor_vendor .gnuc r = le_bytes r.ebx ++ le_bytes r.ecx ++ le_bytes r.edx ++ [0] := rfl

theorem hypervisor_vendor_msc_ver_layout (r : RegisterQuad) :
    hypervisor_vendor .msc_ver r = le_bytes r.ebx ++ le_bytes r.edx ++ le_bytes r.ecx ++ [0] := rfl

theorem le_bytes_load32 (a b c d : Nat) (ha : a < 256) (hb : b < 256) (hc : c < 256)
    (hd : d < 256) : le_bytes (load32 [a, b, c, d]) = [a, b, c, d] := by
  simp only [le_bytes, load32, List.getD_cons_zero, List.getD_cons_succ]
  norm_num
  refine ⟨?_, ?_, ?_, ?_⟩ <;> omega

/-- Under `_MSC_VER` a 12-byte signature split over EBX, EDX, ECX is stored back unchanged. -/
theorem msc_ver_round_trip (s : List Nat) (eax : Nat) (hlen : s.length = 12)
    (hbyte : ∀ b ∈ s, b < 256) :
    hypervisor_vendor .msc_ver
      { eax := eax, ebx := load32 (s.take 4), edx := load32 ((s.drop 4).take 4),
        ecx := load32 (s.drop 8) } = s ++ [0] := by
  match s, hlen with
  | [b0, b1, b2, b3, b4, b5, b6, b7, b8, b9, b10, b11], _ =>
    simp only [List.mem_cons, List.mem_singleton, forall_eq_or_imp, forall_eq] at hbyte
    obtain ⟨h0, h1, h2, h3, h4, h5, h6, h7, h8, h9, h10, h11, -⟩ := hbyte
    rw [hypervisor_vendor_msc_ver_layout]
    simp only [List.take, List.drop]
    rw [le_bytes_load32 _ _ _ _ h0 h1 h2 h3, le_bytes_load32 _ _ _ _ h4 h5 h6 h7,
      le_bytes_load32 _ _ _ _ h8 h9 h10 h11]
    rfl

/-- Under `__GNUC__` the same split comes back with its second and third word exchanged. -/
theorem gnuc_round_trip (s : List Nat) (eax : Nat) (hlen : s.length = 12)
    (hbyte : ∀ b ∈ s, b < 256) :
    hypervisor_vendor .gnuc
      { eax := eax, ebx := load32 (s.take 4), edx := load32 ((s.drop 4).take 4),
        ecx := load32 (s.drop 8) } = s.take 4 ++ s.drop 8 ++ (s.drop 4).take 4 ++ [0] := by
  match s, hlen with
  | [b0, b1, b2, b3, b4, b5, b6, b7, b8, b9, b10, b11], _ =>
    simp only [List.mem_cons, List.mem_singleton, forall_eq_or_imp, forall_eq] at hbyte
    obtain ⟨h0, h1, h2, h3, h4, h5, h6, h7, h8, h9, h10, h11, -⟩ := hbyte
    rw [hypervisor_vendor_gnuc_layout]
    simp only [List.take, List.drop]
    rw [le_bytes_load32 _ _ _ _ h0 h1 h2 h3, le_bytes_load32 _ _ _ _ h4 h5 h6 h7,
      le_bytes_load32 _ _ _ _ h8 h9 h10 h11]

/-- C2: on the quad that carries "Microsoft Hv" as the claim prescribes (EBX = "Micr",
EDX = "osof", ECX = "t Hv") the `__GNUC__` branch assembles "Micrt Hvosof": ECX lands at
offsets 4-7 and EDX at offsets 8-11, so the signature is not reproduced, while the
`_MSC_VER` branch reproduces it. -/
theorem gnuc_signature_not_reproduced :
    hypervisor_vendor .gnuc
      { eax := 0x40000000, ebx := load32 (lit "Micr"), edx := load32 (lit "osof"),
        ecx := load32 (lit "t Hv") } = lit "Micrt Hvosof" ++ [0] ∧
    hypervisor_vendor .gnuc
      { eax := 0x40000000, ebx := load32 (lit "Micr"), edx := load32 (lit "osof"),
        ecx := load32 (lit "t Hv") } ≠ lit "Microsoft Hv" ++ [0] ∧
    hypervisor_vendor .msc_ver
      { eax := 0x40000000, ebx := load32 (lit "Micr"), edx := load32 (lit "osof"),
        ecx := load32 (lit "t Hv") } = lit "Microsoft Hv" ++ [0] ∧
    load32 (lit "Micr") = 0x7263694D ∧ load32 (lit "osof") = 0x666F736F ∧
    load32 (lit "t Hv") = 0x76482074 := by
  decide

/-- C3: on the crafted quad EBX = "VBox", EDX = "VBox", ECX = 0 the `__GNUC__` branch
assembles "VBox\0\0\0\0VBox" and reports Unknown Hypervisor, not Oracle VirtualBox; the
`_MSC_VER` branch assembles "VBoxVBox\0\0\0\0" and reports Oracle VirtualBox. -/
theorem gnuc_crafted_vbox_unknown :
    hypervisor_vendor .gnuc
      { eax := 0x40000000, ebx := load32 (lit "VBox"), edx := load32 (lit "VBox"), ecx := 0 }
      = lit "VBox" ++ [0, 0, 0, 0] ++ lit "VBox" ++ [0] ∧
    get_hypervisor_vendor .gnuc
      { eax := 0x40000000, ebx := load32 (lit "VBox"), edx := load32 (lit "VBox"), ecx := 0 }
      = REPORT_UNKNOWN ∧
    REPORT_UNKNOWN ≠ REPORT_VBOX ∧
    get_hypervisor_vendor .msc_ver
      { eax := 0x40000000, ebx := load32 (lit "VBox"), edx := load32 (lit "VBox"), ecx := 0 }
      = REPORT_VBOX ∧
    load32 (lit "VBox") = 0x786F4256 := by
  decide

/-! ## Vendor classification -/

/-- Against a signature without NUL bytes, `strncmp` over its whole length succeeds exactly
when the buffer starts with the signature. -/
theorem strncmp_eq_zero_iff (p : List Nat) (hp : ∀ b ∈ p, b ≠ 0) (hv : List Nat) :
    strncmp hv p p.length = 0 ↔ hv.take p.length = p := by
  induction p generalizing hv with
  | nil => simp [strncmp]
  | cons a p ih =>
    have ha : a ≠ 0 := hp a (List.mem_cons_self a p)
    have hp2 : ∀ b ∈ p, b ≠ 0 := fun b hb => hp b (List.mem_cons_of_mem a hb)
    cases hv with
    | nil =>
      simp only [List.length_cons, strncmp, List.headD_nil, List.headD_cons, List.take_nil]
      rw [if_pos (Ne.symm ha)]
      constructor
      · intro h; exfalso; omega
      · intro h; exact absurd h (by simp)
    | cons c hv =>
      simp only [List.length_cons, strncmp, List.headD_cons, List.tail_cons, List.take_succ_cons]
      by_cases hca : c = a
      · subst hca
        rw [if_neg (by simp), if_neg ha, ih hp2 hv]
        simp
      · rw [if_pos hca]
        constructor
        · intro h; exfalso; omega
        · intro h; exact absurd (List.cons.inj h).1 hca

theorem entry_hit_iff (hv : List Nat) (e : VendorEntry) (he : e ∈ vendor_table) :
    entry_hit hv e = true ↔ hv.take e.n = e.sig := by
  have key : ∀ x ∈ vendor_table, x.n = x.sig.length ∧ ∀ b ∈ x.sig, b ≠ 0 := by decide
  obtain ⟨hn, hz⟩ := key e he
  unfold entry_hit
  rw [beq_iff_eq, hn]
  exact strncmp_eq_zero_iff e.sig hz hv

/-- Two rows whose comparisons both succeed on one buffer are the same row. -/
theorem entry_hit_unique (hv : List Nat) (e1 e2 : VendorEntry) (h1 : e1 ∈ vendor_table)
    (h2 : e2 ∈ vendor_table) (m1 : entry_hit hv e1 = true) (m2 : entry_hit hv e2 = true) :
    e1 = e2 := by
  have key : ∀ x ∈ vendor_table, ∀ y ∈ vendor_table,
      x.sig.take 2 = y.sig.take 2 → x = y := by decide
  have two : ∀ x ∈ vendor_table, 2 ≤ x.n := by decide
  rw [entry_hit_iff hv e1 h1] at m1
  rw [entry_hit_iff hv e2 h2] at m2
  apply key e1 h1 e2 h2
  rw [← m1, ← m2, List.take_take, List.take_take, min_eq_left (two e1 h1),
    min_eq_left (two e2 h2)]

theorem vendor_chain_eq_first_match (hv : List Nat) :
    vendor_chain hv = first_match vendor_table hv := by
  unfold vendor_chain first_match vendor_table
  simp only [List.find?_cons, List.find?_nil, entry_hit]
  by_cases h1 : strncmp hv (lit "KVM") 3 = 0
  · rw [if_pos h1, beq_iff_eq.mpr h1]
  · rw [if_neg h1, beq_false_of_ne h1]
    by_cases h2 : strncmp hv (lit "VMware") 6 = 0
    · rw [if_pos h2, beq_iff_eq.mpr h2]
    · rw [if_neg h2, beq_false_of_ne h2]
      by_cases h3 : strncmp hv (lit "Microsoft Hv") 12 = 0
      · rw [if_pos h3, beq_iff_eq.mpr h3]
      · rw [if_neg h3, beq_false_of_ne h3]
        by_cases h4 : strncmp hv (lit "XenVMM") 6 = 0
        · rw [if_pos h4, beq_iff_eq.mpr h4]
        · rw [if_neg h4, beq_false_of_ne h4]
          by_cases h5 : strncmp hv (lit "VBoxVBox") 8 = 0
          · rw [if_pos h5, beq_iff_eq.mpr h5]
          · rw [if_neg h5, beq_false_of_ne h5]

/-- What the chain returns, by which comparison is the first to succeed. -/
theorem vendor_chain_cases (hv : List Nat) :
    (hv.take 3 = lit "KVM" ∧ vendor_chain hv = REPORT_KVM) ∨
    (hv.take 6 = lit "VMware" ∧ vendor_chain hv = REPORT_VMWARE) ∨
    (hv.take 12 = lit "Microsoft Hv" ∧ vendor_chain hv = REPORT_HYPERV) ∨
    (hv.take 6 = lit "XenVMM" ∧ vendor_chain hv = REPORT_XEN) ∨
    (hv.take 8 = lit "VBoxVBox" ∧ vendor_chain hv = REPORT_VBOX) ∨
    (hv.take 3 ≠ lit "KVM" ∧ hv.take 6 ≠ lit "VMware" ∧ hv.take 12 ≠ lit "Microsoft Hv" ∧
      hv.take 6 ≠ lit "XenVMM" ∧ hv.take 8 ≠ lit "VBoxVBox" ∧
      vendor_chain hv = REPORT_UNKNOWN) := by
  have e1 := strncmp_eq_zero_iff (lit "KVM") (by decide) hv
  have e2 := strncmp_eq_zero_iff (lit "VMware") (by decide) hv
  have e3 := strncmp_eq_zero_iff (lit "Microsoft Hv") (by decide) hv
  have e4 := strncmp_eq_zero_iff (lit "XenVMM") (by decide) hv
  have e5 := strncmp_eq_zero_iff (lit "VBoxVBox") (by decide) hv
  rw [show (lit "KVM").length = 3 by decide] at e1
  rw [show (lit "VMware").length = 6 by decide] at e2
  rw [show (lit "Microsoft Hv").length = 12 by decide] at e3
  rw [show (lit "XenVMM").length = 6 by decide] at e4
  rw [show (lit "VBoxVBox").length = 8 by decide] at e5
  unfold vendor_chain
  by_cases h1 : strncmp hv (lit "KVM") 3 = 0
  · exact Or.inl ⟨e1.mp h1, if_pos h1⟩
  · rw [if_neg h1]
    by_cases h2 : strncmp hv (lit "VMware") 6 = 0
    · exact Or.inr (Or.inl ⟨e2.mp h2, if_pos h2⟩)
    · rw [if_neg h2]
      by_cases h3 : strncmp hv (lit "Microsoft Hv") 12 = 0
      · exact Or.inr (Or.inr (Or.inl ⟨e3.mp h3, if_pos h3⟩))
      · rw [if_neg h3]
        by_cases h4 : strncmp hv (lit "XenVMM") 6 = 0
        · exact Or.inr (Or.inr (Or.inr (Or.inl ⟨e4.mp h4, if_pos h4⟩)))
        · rw [if_neg h4]
          by_cases h5 : strncmp hv (lit "VBoxVBox") 8 = 0
          · exact Or.inr (Or.inr (Or.inr (Or.inr (Or.inl ⟨e5.mp h5, if_pos h5⟩))))
          · exact Or.inr (Or.inr (Or.inr (Or.inr (Or.inr
              ⟨fun h => h1 (e1.mpr h), fun h => h2 (e2.mpr h), fun h => h3 (e3.mpr h),
               fun h => h4 (e4.mpr h), fun h => h5 (e5.mpr h), if_neg h5⟩))))

/-- A buffer that starts with one signature starts with no signature that differs from it
within the first two bytes. -/
theorem take_ne_of_take (hv p q : List Nat) (m n : Nat) (hm : 2 ≤ m) (hn : 2 ≤ n)
    (hpq : p.take 2 ≠ q.take 2) (h : hv.take m = p) : hv.take n ≠ q := by
  intro hq
  apply hpq
  rw [← h, ← hq, List.take_take, List.take_take, min_eq_left hm, min_eq_left hn]

theorem vendor_chain_spec (hv : List Nat) :
    (vendor_chain hv = REPORT_KVM ↔ hv.take 3 = lit "KVM") ∧
    (vendor_chain hv = REPORT_VMWARE ↔ hv.take 6 = lit "VMware") ∧
    (vendor_chain hv = REPORT_HYPERV ↔ hv.take 12 = lit "Microsoft Hv") ∧
    (vendor_chain hv = REPORT_XEN ↔ hv.take 6 = lit "XenVMM") ∧
    (vendor_chain hv = REPORT_VBOX ↔ hv.take 8 = lit "VBoxVBox") ∧
    (vendor_chain hv = REPORT_UNKNOWN ↔
      hv.take 3 ≠ lit "KVM" ∧ hv.take 6 ≠ lit "VMware" ∧ hv.take 12 ≠ lit "Microsoft Hv" ∧
      hv.take 6 ≠ lit "XenVMM" ∧ hv.take 8 ≠ lit "VBoxVBox") := by
  have d12 : (lit "KVM").take 2 ≠ (lit "VMware").take 2 := by decide
  have d13 : (lit "KVM").take 2 ≠ (lit "Microsoft Hv").take 2 := by decide
  have d14 : (lit "KVM").take 2 ≠ (lit "XenVMM").take 2 := by decide
  have d15 : (lit "KVM").take 2 ≠ (lit "VBoxVBox").take 2 := by decide
  have d23 : (lit "VMware").take 2 ≠ (lit "Microsoft Hv").take 2 := by decide
  have d24 : (lit "VMware").take 2 ≠ (lit "XenVMM").take 2 := by decide
  have d25 : (lit "VMware").take 2 ≠ (lit "VBoxVBox").take 2 := by decide
  have d34 : (lit "Microsoft Hv").take 2 ≠ (lit "XenVMM").take 2 := by decide
  have d35 : (lit "Microsoft Hv").take 2 ≠ (lit "VBoxVBox").take 2 := by decide
  have d45 : (lit "XenVMM").take 2 ≠ (lit "VBoxVBox").take 2 := by decide
  have r12 : REPORT_KVM ≠ REPORT_VMWARE := by decide
  have r13 : REPORT_KVM ≠ REPORT_HYPERV := by decide
  have r14 : REPORT_KVM ≠ REPORT_XEN := by decide
  have r15 : REPORT_KVM ≠ REPORT_VBOX := by decide
  have r16 : REPORT_KVM ≠ REPORT_UNKNOWN := by decide
  have r23 : REPORT_VMWARE ≠ REPORT_HYPERV := by decide
  have r24 : REPORT_VMWARE ≠ REPORT_XEN := by decide
  have r25 : REPORT_VMWARE ≠ REPORT_VBOX := by decide
  have r26 : REPORT_VMWARE ≠ REPORT_UNKNOWN := by decide
  have r34 : REPORT_HYPERV ≠ REPORT_XEN := by decide
  have r35 : REPORT_HYPERV ≠ REPORT_VBOX := by decide
  have r36 : REPORT_HYPERV ≠ REPORT_UNKNOWN := by decide
  have r45 : REPORT_XEN ≠ REPORT_VBOX := by decide
  have r46 : REPORT_XEN ≠ REPORT_UNKNOWN := by decide
  have r56 : REPORT_VBOX ≠ REPORT_UNKNOWN := by decide
  have s24 : lit "VMware" ≠ lit "XenVMM" := by decide
  have t := take_ne_of_take hv
  rcases vendor_chain_cases hv with ⟨h, c⟩ | ⟨h, c⟩ | ⟨h, c⟩ | ⟨h, c⟩ | ⟨h, c⟩ |
    ⟨n1, n2, n3, n4, n5, c⟩
  · have a2 := t _ (lit "VMware") 3 6 (by decide) (by decide) d12 h
    have a3 := t _ (lit "Microsoft Hv") 3 12 (by decide) (by decide) d13 h
    have a4 := t _ (lit "XenVMM") 3 6 (by decide) (by decide) d14 h
    have a5 := t _ (lit "VBoxVBox") 3 8 (by decide) (by decide) d15 h
    rw [c]
    simp only [h, a2, a3, a4, a5, r12, r13, r14, r15, r16, ne_eq, not_true_eq_false,
      not_false_eq_true, false_and, and_self, iff_self]
  · have a1 := t _ (lit "KVM") 6 3 (by decide) (by decide) d12.symm h
    have a3 := t _ (lit "Microsoft Hv") 6 12 (by decide) (by decide) d23 h
    have a4 := t _ (lit "XenVMM") 6 6 (by decide) (by decide) d24 h
    have a5 := t _ (lit "VBoxVBox") 6 8 (by decide) (by decide) d25 h
    rw [c]
    simp only [h, a1, a3, a5, s24, r12.symm, r23, r24, r25, r26, ne_eq, not_true_eq_false,
      not_false_eq_true, false_and, and_false, and_self, iff_self]
  · have a1 := t _ (lit "KVM") 12 3 (by decide) (by decide) d13.symm h
    have a2 := t _ (lit "VMware") 12 6 (by decide) (by decide) d23.symm h
    have a4 := t _ (lit "XenVMM") 12 6 (by decide) (by decide) d34 h
    have a5 := t _ (lit "VBoxVBox") 12 8 (by decide) (by decide) d35 h
    rw [c]
    simp only [h, a1, a2, a4, a5, r13.symm, r23.symm, r34, r35, r36, ne_eq, not_true_eq_false,
      not_false_eq_true, false_and, and_false, and_self, iff_self]
  · have a1 := t _ (lit "KVM") 6 3 (by decide) (by decide) d14.symm h
    have a2 := t _ (lit "VMware") 6 6 (by decide) (by decide) d24.symm h
    have a3 := t _ (lit "Microsoft Hv") 6 12 (by decide) (by decide) d34.symm h
    have a5 := t _ (lit "VBoxVBox") 6 8 (by decide) (by decide) d45 h
    rw [c]
    simp only [h, a1, a3, a5, s24.symm, r14.symm, r24.symm, r34.symm, r45, r46, ne_eq,
      not_true_eq_false, not_false_eq_true, false_and, and_false, and_self, iff_self]
  · have a1 := t _ (lit "KVM") 8 3 (by decide) (by decide) d15.symm h
    have a2 := t _ (lit "VMware") 8 6 (by decide) (by decide) d25.symm h
    have a3 := t _ (lit "Microsoft Hv") 8 12 (by decide) (by decide) d35.symm h
    have a4 := t _ (lit "XenVMM") 8 6 (by decide) (by decide) d45.symm h
    rw [c]
    simp only [h, a1, a2, a3, a4, r15.symm, r25.symm, r35.symm, r45.symm, r56, ne_eq,
      not_true_eq_false, not_false_eq_true, false_and, and_false, and_self, iff_self]
  · rw [c]
    simp only [n1, n2, n3, n4, n5, r16.symm, r26.symm, r36.symm, r46.symm, r56.symm, ne_eq,
      not_true_eq_false, not_false_eq_true, false_and, and_false, and_self, iff_self]

/-- First-match search does not depend on the order of a list in which a predicate holds
of at most one element. -/
theorem find_eq_of_perm (p : VendorEntry → Bool) (l1 l2 : List VendorEntry)
    (hperm : l1.Perm l2)
    (huniq : ∀ a ∈ l1, ∀ b ∈ l1, p a = true → p b = true → a = b) :
    l1.find? p = l2.find? p := by
  induction hperm with
  | nil => rfl
  | cons x _ ih =>
    rw [List.find?_cons, List.find?_cons]
    cases hx : p x
    · exact ih (fun a ha b hb =>
        huniq a (List.mem_cons_of_mem x ha) b (List.mem_cons_of_mem x hb))
    · rfl
  | swap x y l =>
    simp only [List.find?_cons]
    cases hx : p x <;> cases hy : p y <;> try rfl
    have hxy : y = x :=
      huniq y (List.mem_cons_self y _) x (List.mem_cons_of_mem y (List.mem_cons_self x l)) hy hx
    rw [hxy]
  | trans h12 _ ih1 ih2 =>
    exact (ih1 huniq).trans
      (ih2 (fun a ha b hb => huniq a (h12.mem_iff.mpr ha) b (h12.mem_iff.mpr hb)))

theorem filter_length_le_one (p : VendorEntry → Bool) (l : List VendorEntry) (hnd : l.Nodup)
    (huniq : ∀ a ∈ l, ∀ b ∈ l, p a = true → p b = true → a = b) :
    (l.filter p).length ≤ 1 := by
  have hnd2 : (l.filter p).Nodup := hnd.filter p
  match hf : l.filter p, hnd2 with
  | [], _ => simp
  | [_], _ => simp
  | a :: b :: t, hnd3 =>
    exfalso
    have ha : a ∈ l.filter p := by rw [hf]; simp
    have hb : b ∈ l.filter p := by rw [hf]; simp
    rw [List.mem_filter] at ha hb
    have hab := huniq a ha.1 b hb.1 ha.2 hb.2
    rw [hab] at hnd3
    simp at hnd3

/-- C4: whichever branch assembled the 13-byte buffer, `get_hypervisor_vendor` reports KVM
exactly when its first 3 bytes are "KVM", VMware exactly when its first 6 bytes are
"VMware", Microsoft Hyper-V exactly when its first 12 bytes are "Microsoft Hv", Xen exactly
when its first 6 bytes are "XenVMM", Oracle VirtualBox exactly when its first 8 bytes are
"VBoxVBox", and Unknown Hypervisor exactly when none of the five prefixes matches; the
all-zero register quad is reported as Unknown Hypervisor. -/
theorem vendor_classification (tc : Toolchain) (r : RegisterQuad) :
    (hypervisor_vendor tc r).length = 13 ∧
    (get_hypervisor_vendor tc r = REPORT_KVM ↔
      (hypervisor_vendor tc r).take 3 = lit "KVM") ∧
    (get_hypervisor_vendor tc r = REPORT_VMWARE ↔
      (hypervisor_vendor tc r).take 6 = lit "VMware") ∧
    (get_hypervisor_vendor tc r = REPORT_HYPERV ↔
      (hypervisor_vendor tc r).take 12 = lit "Microsoft Hv") ∧
    (get_hypervisor_vendor tc r = REPORT_XEN ↔
      (hypervisor_vendor tc r).take 6 = lit "XenVMM") ∧
    (get_hypervisor_vendor tc r = REPORT_VBOX ↔
      (hypervisor_vendor tc r).take 8 = lit "VBoxVBox") ∧
    (get_hypervisor_vendor tc r = REPORT_UNKNOWN ↔
      (hypervisor_vendor tc r).take 3 ≠ lit "KVM" ∧
      (hypervisor_vendor tc r).take 6 ≠ lit "VMware" ∧
      (hypervisor_vendor tc r).take 12 ≠ lit "Microsoft Hv" ∧
      (hypervisor_vendor tc r).take 6 ≠ lit "XenVMM" ∧
      (hypervisor_vendor tc r).take 8 ≠ lit "VBoxVBox") ∧
    get_hypervisor_vendor tc { eax := 0, ebx := 0, ecx := 0, edx := 0 } = REPORT_UNKNOWN := by
  refine ⟨?_, ?_⟩
  · cases tc
    · rw [hypervisor_vendor_msc_ver_layout]; rfl
    · rw [hypervisor_vendor_gnuc_layout]; rfl
  · obtain ⟨h1, h2, h3, h4, h5, h6⟩ := vendor_chain_spec (hypervisor_vendor tc r)
    refine ⟨h1, h2, h3, h4, h5, h6, ?_⟩
    cases tc <;> decide

/-- C9: on every signature buffer at most one of the five comparisons of the table
succeeds, and first-match lookup in any reordering of the table returns what the chain of
`get_hypervisor_vendor` returns, on an arbitrary buffer and on the buffer either branch
assembles from a register quad. -/
theorem vendor_table_order_irrelevant (hv : List Nat) (tc : Toolchain) (r : RegisterQuad)
    (table : List VendorEntry) (hperm : table.Perm vendor_table) :
    (vendor_table.filter (entry_hit hv)).length ≤ 1 ∧
    first_match table hv = vendor_chain hv ∧
    first_match table (hypervisor_vendor tc r) = get_hypervisor_vendor tc r := by
  have hnd : vendor_table.Nodup := by decide
  have key : ∀ b : List Nat, first_match table b = vendor_chain b := by
    intro b
    rw [vendor_chain_eq_first_match]
    unfold first_match
    rw [find_eq_of_perm (entry_hit b) table vendor_table hperm
      (fun x hx y hy mx my =>
        entry_hit_unique b x y (hperm.mem_iff.mp hx) (hperm.mem_iff.mp hy) mx my)]
  exact ⟨filter_length_le_one (entry_hit hv) vendor_table hnd
    (fun x hx y hy mx my => entry_hit_unique hv x y hx hy mx my), key hv,
    key (hypervisor_vendor tc r)⟩

theorem vendor_table_order_irrelevant_witness :
    (vendor_table.filter (entry_hit (lit "VBoxVBoxVBox" ++ [0]))).length ≤ 1 ∧
    first_match vendor_table.reverse (lit "VBoxVBoxVBox" ++ [0]) =
      vendor_chain (lit "VBoxVBoxVBox" ++ [0]) ∧
    first_match vendor_table.reverse
      (hypervisor_vendor .gnuc
        { eax := 0, ebx := load32 (lit "KVMK"), ecx := load32 (lit "VMKV"),
          edx := load32 (lit "M") }) =
      get_hypervisor_vendor .gnuc
        { eax := 0, ebx := load32 (lit "KVMK"), ecx := load32 (lit "VMKV"),
          edx := load32 (lit "M") } :=
  vendor_table_order_irrelevant (lit "VBoxVBoxVBox" ++ [0]) .gnuc
    { eax := 0, ebx := load32 (lit "KVMK"), ecx := load32 (lit "VMKV"),
      edx := load32 (lit "M") }
    vendor_table.reverse (List.reverse_perm vendor_table)

/-! ## Command scanners -/

theorem scan_lines_nil (hit : List Nat → Bool) (flag : Bool) :
    scan_lines hit [] flag = flag := by
  rw [scan_lines]; simp [fgets]

theorem scan_lines_cons (hit : List Nat → Bool) (c : Nat) (s : List Nat) (flag : Bool) :
    scan_lines hit (c :: s) flag =
      if hit ((fgets_aux (c :: s) 1034).1 ++ [0]) then true
      else scan_lines hit (fgets_aux (c :: s) 1034).2 false := by
  rw [scan_lines]; simp [fgets]

theorem lines_eq_nil_iff (s : List Nat) : lines s = [] ↔ s = [] := by
  cases s with
  | nil => simp [lines]
  | cons c s =>
    simp only [lines]
    by_cases hc : c = 10
    · simp [hc]
    · rw [if_neg hc]
      cases lines s <;> simp

/-- Gluing the lines together gives the output back. -/
theorem lines_flatten (s : List Nat) : (lines s).flatten = s := by
  induction s with
  | nil => rfl
  | cons c s ih =>
    simp only [lines]
    by_cases hc : c = 10
    · rw [if_pos hc, List.flatten_cons, ih]; rfl
    · rw [if_neg hc]
      cases hl : lines s with
      | nil =>
        rw [(lines_eq_nil_iff s).mp hl]; rfl
      | cons l ls =>
        rw [hl] at ih
        simp only [List.flatten_cons, List.cons_append] at ih ⊢
        rw [ih]

theorem mem_of_mem_lines (s l : List Nat) (hl : l ∈ lines s) (b : Nat) (hb : b ∈ l) : b ∈ s := by
  rw [← lines_flatten s]
  exact List.mem_flatten.mpr ⟨l, hl, hb⟩

/-- When the first line of the output fits, one `fgets` call stores exactly that line and
leaves exactly the remaining lines. -/
theorem fgets_aux_first_line (s : List Nat) (n : Nat) (l : List Nat) (ls : List (List Nat))
    (hl : lines s = l :: ls) (hfit : l.length ≤ n) :
    (fgets_aux s n).1 = l ∧ lines (fgets_aux s n).2 = ls := by
  induction s generalizing n l ls with
  | nil => simp [lines] at hl
  | cons c s ih =>
    simp only [lines] at hl
    by_cases hc : c = 10
    · rw [if_pos hc] at hl
      obtain ⟨h1, h2⟩ := List.cons.inj hl
      subst h1
      have hn : n ≠ 0 := by simp at hfit; omega
      simp [fgets_aux, hn, hc, h2]
    · rw [if_neg hc] at hl
      cases hs : lines s with
      | nil =>
        rw [hs] at hl
        obtain ⟨h1, h2⟩ := List.cons.inj hl
        subst h1
        have hn : n ≠ 0 := by simp at hfit; omega
        rw [(lines_eq_nil_iff s).mp hs]
        simp [fgets_aux, hn, hc, ← h2, lines]
      | cons l2 ls2 =>
        rw [hs] at hl
        obtain ⟨h1, h2⟩ := List.cons.inj hl
        subst h1
        have hn : n ≠ 0 := by simp at hfit; omega
        have hfit2 : l2.length ≤ n - 1 := by simp at hfit; omega
        obtain ⟨i1, i2⟩ := ih (n - 1) l2 ls2 hs hfit2
        simp [fgets_aux, hn, hc, i1, i2, h2]

/-- On an output whose lines all fit the array, the loop leaves the flag untouched when
there is no line and otherwise sets it to whether some line is a hit. -/
theorem scan_lines_eq_any (hit : List Nat → Bool) (L : List (List Nat)) (s : List Nat)
    (flag : Bool) (hL : lines s = L) (hfit : ∀ l ∈ L, l.length ≤ 1034) :
    scan_lines hit s flag = if L = [] then flag else L.any (fun l => hit (l ++ [0])) := by
  induction L generalizing s flag with
  | nil =>
    rw [(lines_eq_nil_iff s).mp hL, scan_lines_nil]; rfl
  | cons l ls ih =>
    cases s with
    | nil => simp [lines] at hL
    | cons c t =>
      obtain ⟨h1, h2⟩ := fgets_aux_first_line (c :: t) 1034 l ls hL
        (hfit l (List.mem_cons_self l ls))
      rw [scan_lines_cons, h1, if_neg (List.cons_ne_nil l ls), List.any_cons]
      cases hh : hit (l ++ [0])
      · rw [if_neg (by simp), ih _ false h2 (fun x hx => hfit x (List.mem_cons_of_mem l hx))]
        cases ls <;> simp
      · simp

theorem find_sub_iff (hay needle : List Nat) : find_sub hay needle = true ↔ needle <:+: hay := by
  induction hay with
  | nil =>
    rw [find_sub, List.isPrefixOf_iff_prefix, List.prefix_nil, List.infix_nil]
  | cons c hay ih =>
    rw [find_sub, Bool.or_eq_true, List.isPrefixOf_iff_prefix, ih, List.infix_cons_iff]

theorem c_str_of_text (l : List Nat) (hl : ∀ b ∈ l, b ≠ 0) (rest : List Nat) :
    c_str (l ++ 0 :: rest) = l := by
  induction l with
  | nil => simp [c_str]
  | cons a l ih =>
    have ha : a ≠ 0 := hl a (List.mem_cons_self a l)
    have := ih (fun b hb => hl b (List.mem_cons_of_mem a hb))
    simp only [c_str] at this ⊢
    simp [List.takeWhile_cons, ha, this]

theorem c_str_of_lit (p : List Nat) (hp : ∀ b ∈ p, b ≠ 0) : c_str p = p := by
  induction p with
  | nil => rfl
  | cons a p ih =>
    have ha : a ≠ 0 := hp a (List.mem_cons_self a p)
    have := ih (fun b hb => hp b (List.mem_cons_of_mem a hb))
    simp only [c_str] at this ⊢
    simp [List.takeWhile_cons, ha, this]

/-- On a line of text, `strstr` with a NUL-free needle finds it exactly when the needle
occurs in the line. -/
theorem strstr_text_iff (l p : List Nat) (hl : ∀ b ∈ l, b ≠ 0) (hp : ∀ b ∈ p, b ≠ 0) :
    strstr (l ++ [0]) p = true ↔ p <:+: l := by
  unfold strstr
  rw [c_str_of_text l hl [], c_str_of_lit p hp, find_sub_iff]

/-- The loop on a text output of at least one line, all lines fitting: the flag ends up set
exactly when some line satisfies what `hit` tests. -/
theorem scan_text_iff (hit : List Nat → Bool) (pats : List (List Nat))
    (hhit : ∀ l : List Nat, (∀ b ∈ l, b ≠ 0) →
      (hit (l ++ [0]) = true ↔ ∃ p ∈ pats, p <:+: l))
    (out : List Nat) (flag : Bool) (hne : lines out ≠ [])
    (hfit : ∀ l ∈ lines out, l.length ≤ 1034) (htext : ∀ b ∈ out, b ≠ 0) :
    scan_lines hit out flag = true ↔ some_line_contains pats out := by
  rw [scan_lines_eq_any hit (lines out) out flag rfl hfit, if_neg hne, List.any_eq_true]
  unfold some_line_contains
  constructor
  · rintro ⟨l, hl, h⟩
    exact ⟨l, hl, (hhit l (fun b hb => htext b (mem_of_mem_lines out l hl b hb))).mp h⟩
  · rintro ⟨l, hl, h⟩
    exact ⟨l, hl, (hhit l (fun b hb => htext b (mem_of_mem_lines out l hl b hb))).mpr h⟩

theorem network_hit_iff (l : List Nat) (hl : ∀ b ∈ l, b ≠ 0) :
    (strstr (l ++ [0]) (lit "eth") || strstr (l ++ [0]) (lit "ens") ||
      strstr (l ++ [0]) (lit "veth")) = true ↔ ∃ p ∈ NETWORK_PATTERNS, p <:+: l := by
  simp only [Bool.or_eq_true, strstr_text_iff l (lit "eth") hl (by decide),
    strstr_text_iff l (lit "ens") hl (by decide), strstr_text_iff l (lit "veth") hl (by decide),
    NETWORK_PATTERNS, List.mem_cons, List.mem_singleton, exists_eq_or_imp, exists_eq_left,
    List.not_mem_nil, false_and, exists_false, or_false, or_assoc]

theorem block_hit_iff (l : List Nat) (hl : ∀ b ∈ l, b ≠ 0) :
    (strstr (l ++ [0]) (lit "vda") || strstr (l ++ [0]) (lit "xvda")) = true ↔
      ∃ p ∈ BLOCK_PATTERNS, p <:+: l := by
  simp only [Bool.or_eq_true, strstr_text_iff l (lit "vda") hl (by decide),
    strstr_text_iff l (lit "xvda") hl (by decide),
    BLOCK_PATTERNS, List.mem_cons, List.mem_singleton, exists_eq_or_imp, exists_eq_left,
    List.not_mem_nil, false_and, exists_false, or_false]

theorem kernel_module_hit_iff (l : List Nat) (hl : ∀ b ∈ l, b ≠ 0) :
    (strstr (l ++ [0]) (lit "kvm") || strstr (l ++ [0]) (lit "vbox")) = true ↔
      ∃ p ∈ KERNEL_MODULE_PATTERNS, p <:+: l := by
  simp only [Bool.or_eq_true, strstr_text_iff l (lit "kvm") hl (by decide),
    strstr_text_iff l (lit "vbox") hl (by decide),
    KERNEL_MODULE_PATTERNS, List.mem_cons, List.mem_singleton, exists_eq_or_imp, exists_eq_left,
    List.not_mem_nil, false_and, exists_false, or_false]

theorem pci_hit_iff (l : List Nat) (hl : ∀ b ∈ l, b ≠ 0) :
    (strstr (l ++ [0]) (lit "1002") || strstr (l ++ [0]) (lit "8086")) = true ↔
      ∃ p ∈ PCI_PATTERNS, p <:+: l := by
  simp only [Bool.or_eq_true, strstr_text_iff l (lit "1002") hl (by decide),
    strstr_text_iff l (lit "8086") hl (by decide),
    PCI_PATTERNS, List.mem_cons, List.mem_singleton, exists_eq_or_imp, exists_eq_left,
    List.not_mem_nil, false_and, exists_false, or_false]

/-- A scanner's return value as a function of the flag the loop leaves. -/
theorem ret_of_flag (f : Bool) (d n : Int) (hdn : d ≠ n) :
    ((if (!f) = true then Outcome.ret n else Outcome.ret d) = Outcome.ret d ↔ f = true) ∧
    ((if (!f) = true then Outcome.ret n else Outcome.ret d) = Outcome.ret n ↔ ¬ f = true) := by
  cases f
  · simp [hdn.symm]
  · simp [hdn]

/-- C6 (amended): for an output of at least one line that holds no NUL byte and whose lines
(newline included) each fit one 1034-byte read, each scanner returns its Detected code
exactly when some line contains one of its literal substrings and its NotDetected code
exactly when none does, whatever the flag held on entry: network {"eth", "ens", "veth"}
(3 / -3), block {"vda", "xvda"} (4 / -4), kernel modules {"kvm", "vbox"} (5 / -5),
PCI {"1002", "8086"} (6 / -6). -/
theorem scanner_matching_text (out : List Nat) (flag : Bool) (hne : lines out ≠ [])
    (hfit : ∀ l ∈ lines out, l.length ≤ 1034) (htext : ∀ b ∈ out, b ≠ 0) :
    (detect_virtual_network_devices (some out) flag = Outcome.ret 3 ↔
      some_line_contains NETWORK_PATTERNS out) ∧
    (detect_virtual_network_devices (some out) flag = Outcome.ret (-3) ↔
      ¬ some_line_contains NETWORK_PATTERNS out) ∧
    (detect_virtual_block_devices (some out) flag = Outcome.ret 4 ↔
      some_line_contains BLOCK_PATTERNS out) ∧
    (detect_virtual_block_devices (some out) flag = Outcome.ret (-4) ↔
      ¬ some_line_contains BLOCK_PATTERNS out) ∧
    (check_kernel_modules (some out) flag = Outcome.ret 5 ↔
      some_line_contains KERNEL_MODULE_PATTERNS out) ∧
    (check_kernel_modules (some out) flag = Outcome.ret (-5) ↔
      ¬ some_line_contains KERNEL_MODULE_PATTERNS out) ∧
    (detect_virtual_pci_devices (some out) flag = Outcome.ret 6 ↔
      some_line_contains PCI_PATTERNS out) ∧
    (detect_virtual_pci_devices (some out) flag = Outcome.ret (-6) ↔
      ¬ some_line_contains PCI_PATTERNS out) := by
  have hnw := scan_text_iff
    (fun path => strstr path (lit "eth") || strstr path (lit "ens") || strstr path (lit "veth"))
    NETWORK_PATTERNS network_hit_iff out flag hne hfit htext
  have hbl := scan_text_iff (fun path => strstr path (lit "vda") || strstr path (lit "xvda"))
    BLOCK_PATTERNS block_hit_iff out flag hne hfit htext
  have hkm := scan_text_iff (fun path => strstr path (lit "kvm") || strstr path (lit "vbox"))
    KERNEL_MODULE_PATTERNS kernel_module_hit_iff out flag hne hfit htext
  have hpc := scan_text_iff (fun path => strstr path (lit "1002") || strstr path (lit "8086"))
    PCI_PATTERNS pci_hit_iff out flag hne hfit htext
  refine ⟨?_, ?_, ?_, ?_, ?_, ?_, ?_, ?_⟩
  · rw [← hnw]; exact (ret_of_flag _ 3 (-3) (by decide)).1
  · rw [← hnw]; exact (ret_of_flag _ 3 (-3) (by decide)).2
  · rw [← hbl]; exact (ret_of_flag _ 4 (-4) (by decide)).1
  · rw [← hbl]; exact (ret_of_flag _ 4 (-4) (by decide)).2
  · rw [← hkm]; exact (ret_of_flag _ 5 (-5) (by decide)).1
  · rw [← hkm]; exact (ret_of_flag _ 5 (-5) (by decide)).2
  · rw [← hpc]; exact (ret_of_flag _ 6 (-6) (by decide)).1
  · rw [← hpc]; exact (ret_of_flag _ 6 (-6) (by decide)).2

theorem scanner_matching_text_witness :
    detect_virtual_network_devices (some (lit "lo\nens33\n")) true = Outcome.ret 3 ∧
    detect_virtual_network_devices (some (lit "lo\n")) true = Outcome.ret (-3) ∧
    check_kernel_modules (some (lit "kvm_intel 372736 0\n")) false = Outcome.ret 5 :=
  ⟨(scanner_matching_text (lit "lo\nens33\n") true (by decide) (by decide) (by decide)).1.mpr
      ⟨lit "ens33\n", by decide, lit "ens", by decide, by decide⟩,
   (scanner_matching_text (lit "lo\n") true (by decide) (by decide) (by decide)).2.1.mpr
      (by decide),
   (scanner_matching_text (lit "kvm_intel 372736 0\n") false (by decide) (by decide)
      (by decide)).2.2.2.2.1.mpr
      ⟨lit "kvm_intel 372736 0\n", by decide, lit "kvm", by decide, by decide⟩⟩

/-- C6 (counterexample): the output "a\0eth\n" is one line that fits a read and contains
"eth", yet `detect_virtual_network_devices` returns `NO_VTX_NW_DEV_DETECTED`: `strstr`
stops at the NUL byte that `fgets` stored in the array. -/
theorem nul_byte_hides_match :
    lines [97, 0, 101, 116, 104, 10] = [[97, 0, 101, 116, 104, 10]] ∧
    [97, 0, 101, 116, 104, 10].length ≤ 1034 ∧
    lit "eth" <:+: [97, 0, 101, 116, 104, 10] ∧
    some_line_contains NETWORK_PATTERNS [97, 0, 101, 116, 104, 10] ∧
    detect_virtual_network_devices (some [97, 0, 101, 116, 104, 10]) false = Outcome.ret (-3) ∧
    detect_virtual_network_devices (some [97, 0, 101, 116, 104, 10]) true = Outcome.ret (-3) := by
  refine ⟨by decide, by decide, by decide, ?_, ?_, ?_⟩
  · decide
  · simp [detect_virtual_network_devices, scan_lines_cons, scan_lines_nil, fgets_aux, strstr,
      find_sub, c_str, lit, NO_VTX_NW_DEV_DETECTED]
  · simp [detect_virtual_network_devices, scan_lines_cons, scan_lines_nil, fgets_aux, strstr,
      find_sub, c_str, lit, NO_VTX_NW_DEV_DETECTED]

/-- On an empty output the loop body never runs and each scanner returns by the value its
flag held on entry. -/
theorem empty_output_by_flag (flag : Bool) :
    detect_virtual_network_devices (some []) flag =
      Outcome.ret (if flag then VTX_NW_DEV_DETECTED else NO_VTX_NW_DEV_DETECTED) ∧
    detect_virtual_block_devices (some []) flag =
      Outcome.ret (if flag then VTX_BLK_DEV_DETECTED else NO_VTX_BLK_DEV_DETECTED) ∧
    check_kernel_modules (some []) flag =
      Outcome.ret (if flag then VTX_KERN_MODS_DETECTED else NO_VTX_KERN_MODS_DETECTED) ∧
    detect_virtual_pci_devices (some []) flag =
      Outcome.ret (if flag then VTX_PCI_DEV_DETECTED else NO_VTX_PCI_DEV_DETECTED) := by
  cases flag <;>
    simp [detect_virtual_network_devices, detect_virtual_block_devices, check_kernel_modules,
      detect_virtual_pci_devices, scan_lines_nil]

/-- C7: when the command produces no output and the uninitialised flag happens to hold a
nonzero value, each of the four scanners returns its Detected code (3, 4, 5, 6), not its
NotDetected code; only when the flag happens to hold zero is NotDetected returned. -/
theorem empty_output_detected_on_garbage :
    detect_virtual_network_devices (some []) true = Outcome.ret VTX_NW_DEV_DETECTED ∧
    detect_virtual_block_devices (some []) true = Outcome.ret VTX_BLK_DEV_DETECTED ∧
    check_kernel_modules (some []) true = Outcome.ret VTX_KERN_MODS_DETECTED ∧
    detect_virtual_pci_devices (some []) true = Outcome.ret VTX_PCI_DEV_DETECTED ∧
    detect_virtual_network_devices (some []) false = Outcome.ret NO_VTX_NW_DEV_DETECTED ∧
    detect_virtual_block_devices (some []) false = Outcome.ret NO_VTX_BLK_DEV_DETECTED ∧
    check_kernel_modules (some []) false = Outcome.ret NO_VTX_KERN_MODS_DETECTED ∧
    detect_virtual_pci_devices (some []) false = Outcome.ret NO_VTX_PCI_DEV_DETECTED := by
  simp [detect_virtual_network_devices, detect_virtual_block_devices, check_kernel_modules,
    detect_virtual_pci_devices, scan_lines_nil]

/-- C8 (counterexample): when `popen` yields no stream, `check_kernel_modules` ends in
`exit(1)`; there is no value it returns to its caller. -/
theorem launch_failure_no_result :
    check_kernel_modules none false = Outcome.exit 1 ∧
    ¬ ∃ v : Int, check_kernel_modules none false = Outcome.ret v := by
  refine ⟨rfl, ?_⟩
  rintro ⟨v, hv⟩
  exact Outcome.noConfusion hv

/-- C8 (amended): when `popen` yields no stream, each of the four scanners terminates the
calling process with exit status 1, whatever its flag held, and so returns neither its
Detected nor its NotDetected code nor any other value. -/
theorem launch_failure_exits (flag : Bool) (v : Int) :
    detect_virtual_network_devices none flag = Outcome.exit 1 ∧
    detect_virtual_block_devices none flag = Outcome.exit 1 ∧
    check_kernel_modules none flag = Outcome.exit 1 ∧
    detect_virtual_pci_devices none flag = Outcome.exit 1 ∧
    detect_virtual_network_devices none flag ≠ Outcome.ret v ∧
    detect_virtual_block_devices none flag ≠ Outcome.ret v ∧
    check_kernel_modules none flag ≠ Outcome.ret v ∧
    detect_virtual_pci_devices none flag ≠ Outcome.ret v := by
  refine ⟨rfl, rfl, rfl, rfl, ?_, ?_, ?_, ?_⟩ <;> exact fun h => Outcome.noConfusion h

/-- Every call of a probe that returns, returns the probe's `+k` or `-k`. -/
theorem run_probe_ret (p : Probe) (i : ProbeInput) (v : Int)
    (h : run_probe p i = Outcome.ret v) : v = probe_code p ∨ v = -probe_code p := by
  have hscan : ∀ (f : Bool) (d n : Int),
      (if (!f) = true then Outcome.ret n else Outcome.ret d) = Outcome.ret v → v = d ∨ v = n := by
    intro f d n hf
    cases f
    · exact Or.inr (Outcome.ret.inj hf).symm
    · exact Or.inl (Outcome.ret.inj hf).symm
  cases p
  · have hv : v = detect_vm i.regs := (Outcome.ret.inj h).symm
    rw [hv, detect_vm_eq]
    cases i.regs.ecx.testBit 31
    · exact Or.inr rfl
    · exact Or.inl rfl
  · have hv : v = detect_nested_virtualization i.ext_maxlevel i.regs i.ecx_local :=
      (Outcome.ret.inj h).symm
    rw [hv, detect_nested_virtualization_eq]
    cases (if i.ext_maxlevel = 0 ∨ i.ext_maxlevel < 0x8000001E then i.ecx_local
      else i.regs.ecx).testBit 5
    · exact Or.inr rfl
    · exact Or.inl rfl
  · simp only [run_probe, detect_virtual_network_devices] at h
    cases hf : i.file_ptr with
    | none => rw [hf] at h; exact Outcome.noConfusion h
    | some s => rw [hf] at h; exact hscan _ _ _ h
  · simp only [run_probe, detect_virtual_block_devices] at h
    cases hf : i.file_ptr with
    | none => rw [hf] at h; exact Outcome.noConfusion h
    | some s => rw [hf] at h; exact hscan _ _ _ h
  · simp only [run_probe, check_kernel_modules] at h
    cases hf : i.file_ptr with
    | none => rw [hf] at h; exact Outcome.noConfusion h
    | some s => rw [hf] at h; exact hscan _ _ _ h
  · simp only [run_probe, detect_virtual_pci_devices] at h
    cases hf : i.file_ptr with
    | none => rw [hf] at h; exact Outcome.noConfusion h
    | some s => rw [hf] at h; exact hscan _ _ _ h

/-- Both codes of every probe are returned on some input. -/
theorem run_probe_attains (p : Probe) :
    (∃ i : ProbeInput, run_probe p i = Outcome.ret (probe_code p)) ∧
    (∃ i : ProbeInput, run_probe p i = Outcome.ret (-probe_code p)) := by
  cases p
  · exact ⟨⟨ProbeInput.mk (RegisterQuad.mk 1 0 0x80000000 0) none false 0x8000001E 0, by decide⟩,
      ⟨ProbeInput.mk (RegisterQuad.mk 1 0 0 0) none false 0x8000001E 0, by decide⟩⟩
  · exact ⟨⟨ProbeInput.mk (RegisterQuad.mk 0x8000001E 0 0x20 0) none false 0x8000001E 0, by decide⟩,
      ⟨ProbeInput.mk (RegisterQuad.mk 0x8000001E 0 0 0) none false 0x8000001E 0, by decide⟩⟩
  · refine ⟨⟨ProbeInput.mk (RegisterQuad.mk 0 0 0 0)
      (some (lit "lo\neth0\n")) false 0x8000001E 0, ?_⟩,
      ⟨ProbeInput.mk (RegisterQuad.mk 0 0 0 0) (some (lit "lo\n")) false 0x8000001E 0, ?_⟩⟩ <;>
    simp [run_probe, detect_virtual_network_devices, scan_lines_cons, scan_lines_nil,
      fgets_aux, strstr, find_sub, c_str, lit, probe_code, VTX_NW_DEV_DETECTED,
      NO_VTX_NW_DEV_DETECTED]
  · refine ⟨⟨ProbeInput.mk (RegisterQuad.mk 0 0 0 0)
      (some (lit "sr0\nvda\n")) false 0x8000001E 0, ?_⟩,
      ⟨ProbeInput.mk (RegisterQuad.mk 0 0 0 0) (some (lit "sda\n")) false 0x8000001E 0, ?_⟩⟩ <;>
    simp [run_probe, detect_virtual_block_devices, scan_lines_cons, scan_lines_nil,
      fgets_aux, strstr, find_sub, c_str, lit, probe_code, VTX_BLK_DEV_DETECTED,
      NO_VTX_BLK_DEV_DETECTED]
  · refine ⟨⟨ProbeInput.mk (RegisterQuad.mk 0 0 0 0)
      (some (lit "Module\nkvm\n")) false 0x8000001E 0, ?_⟩,
      ⟨ProbeInput.mk (RegisterQuad.mk 0 0 0 0) (some (lit "Module\n")) false 0x8000001E 0, ?_⟩⟩ <;>
    simp [run_probe, check_kernel_modules, scan_lines_cons, scan_lines_nil,
      fgets_aux, strstr, find_sub, c_str, lit, probe_code, VTX_KERN_MODS_DETECTED,
      NO_VTX_KERN_MODS_DETECTED]
  · refine ⟨⟨ProbeInput.mk (RegisterQuad.mk 0 0 0 0)
      (some (lit "0000:00:8086\n")) false 0x8000001E 0, ?_⟩,
      ⟨ProbeInput.mk (RegisterQuad.mk 0 0 0 0)
          (some (lit "0000:00:00.0\n")) false 0x8000001E 0, ?_⟩⟩ <;>
    simp [run_probe, detect_virtual_pci_devices, scan_lines_cons, scan_lines_nil,
      fgets_aux, strstr, find_sub, c_str, lit, probe_code, VTX_PCI_DEV_DETECTED,
      NO_VTX_PCI_DEV_DETECTED]

/-- C10: a value `v` returned by probe `p` is `+k` or `-k` for the probe's own
`k = probe_code p` (1 presence, 2 nested, 3 network, 4 block, 5 kernel modules, 6 PCI, with
`+k` the Detected and `-k` the NotDetected constant of `virt_spy.h`); it is never 0; any
probe that returns the same value on any input is the same probe; and both values of the
pair are returned by the probe on some input. -/
theorem result_pairs_distinct (p q : Probe) (i j : ProbeInput) (v : Int)
    (h : run_probe p i = Outcome.ret v) :
    (v = probe_code p ∨ v = -probe_code p) ∧
    v ≠ 0 ∧
    (run_probe q j = Outcome.ret v → q = p) ∧
    (∃ i1 : ProbeInput, run_probe p i1 = Outcome.ret (probe_code p)) ∧
    (∃ i2 : ProbeInput, run_probe p i2 = Outcome.ret (-probe_code p)) ∧
    [probe_code .presence, probe_code .nested, probe_code .network, probe_code .block,
      probe_code .kernel_modules, probe_code .pci] = [1, 2, 3, 4, 5, 6] ∧
    [VM_DETECTED, NESTED_VTX_DETECTED, VTX_NW_DEV_DETECTED, VTX_BLK_DEV_DETECTED,
      VTX_KERN_MODS_DETECTED, VTX_PCI_DEV_DETECTED] = [1, 2, 3, 4, 5, 6] ∧
    [NO_VM_DETECTED, NO_NESTED_VTX_DETECTED, NO_VTX_NW_DEV_DETECTED, NO_VTX_BLK_DEV_DETECTED,
      NO_VTX_KERN_MODS_DETECTED, NO_VTX_PCI_DEV_DETECTED] = [-1, -2, -3, -4, -5, -6] := by
  have hp := run_probe_ret p i v h
  refine ⟨hp, ?_, ?_, (run_probe_attains p).1, (run_probe_attains p).2, rfl, rfl, rfl⟩
  · cases p <;> simp only [probe_code] at hp <;> omega
  · intro hq
    have hq2 := run_probe_ret q j v hq
    cases p <;> cases q <;> simp only [probe_code] at hp hq2 <;> first | rfl | (exfalso; omega)

theorem result_pairs_distinct_witness :
    (3 = probe_code .network ∨ (3 : Int) = -probe_code .network) ∧ (3 : Int) ≠ 0 ∧
    (run_probe .block ⟨⟨0, 0, 0, 0⟩, some (lit "vda\n"), false, 0x8000001E, 0⟩ = Outcome.ret 3 →
      Probe.block = Probe.network) :=
  have h := result_pairs_distinct .network .block
    ⟨⟨0, 0, 0, 0⟩, some (lit "lo\neth0\n"), false, 0x8000001E, 0⟩ ⟨⟨0, 0, 0, 0⟩, some (lit "vda\n"), false, 0x8000001E, 0⟩ 3
    (by simp [run_probe, detect_virtual_network_devices, scan_lines_cons, scan_lines_nil,
      fgets_aux, strstr, find_sub, c_str, lit, VTX_NW_DEV_DETECTED])
  ⟨h.1, h.2.1, h.2.2.1⟩

/-! ## The two toolchain branches -/

/-- The two branches assemble the same buffer exactly when ECX and EDX have the same four
low bytes. -/
theorem branches_agree_iff (r : RegisterQuad) :
    hypervisor_vendor .msc_ver r = hypervisor_vendor .gnuc r ↔
      le_bytes r.ecx = le_bytes r.edx := by
  rw [hypervisor_vendor_msc_ver_layout, hypervisor_vendor_gnuc_layout]
  simp only [le_bytes, List.cons_append, List.nil_append, List.cons.injEq, and_true, true_and]
  constructor <;> intro h <;> (repeat' constructor) <;> omega

/-- C12: on the quad EBX = "VMwa", ECX = "reVM", EDX = "ware" the `_MSC_VER` branch
assembles "VMwawarereVM" and reports Unknown Hypervisor, while the `__GNUC__` branch
assembles "VMwareVMware" and reports VMware: the two branches agree neither on the buffer
nor on the report. -/
theorem branches_disagree :
    hypervisor_vendor .msc_ver
      { eax := 0x40000000, ebx := load32 (lit "VMwa"), ecx := load32 (lit "reVM"),
        edx := load32 (lit "ware") } = lit "VMwawarereVM" ++ [0] ∧
    hypervisor_vendor .gnuc
      { eax := 0x40000000, ebx := load32 (lit "VMwa"), ecx := load32 (lit "reVM"),
        edx := load32 (lit "ware") } = lit "VMwareVMware" ++ [0] ∧
    get_hypervisor_vendor .msc_ver
      { eax := 0x40000000, ebx := load32 (lit "VMwa"), ecx := load32 (lit "reVM"),
        edx := load32 (lit "ware") } = REPORT_UNKNOWN ∧
    get_hypervisor_vendor .gnuc
      { eax := 0x40000000, ebx := load32 (lit "VMwa"), ecx := load32 (lit "reVM"),
        edx := load32 (lit "ware") } = REPORT_VMWARE ∧
    REPORT_UNKNOWN ≠ REPORT_VMWARE ∧
    load32 (lit "VMwa") = 0x61774D56 ∧ load32 (lit "reVM") = 0x4D566572 ∧
    load32 (lit "ware") = 0x65726177 := by
  decide

/-! ## Redundant patterns -/

/-- Whatever the array holds, `strstr` finds a needle whenever it finds a longer needle
that contains it. -/
theorem strstr_of_longer (path p q : List Nat) (hp : ∀ b ∈ p, b ≠ 0) (hq : ∀ b ∈ q, b ≠ 0)
    (hpq : p <:+: q) (h : strstr path q = true) : strstr path p = true := by
  unfold strstr at h ⊢
  rw [c_str_of_lit q hq, find_sub_iff] at h
  rw [c_str_of_lit p hp, find_sub_iff]
  exact List.IsInfix.trans hpq h

theorem network_hit_reduced (path : List Nat) :
    (strstr path (lit "eth") || strstr path (lit "ens") || strstr path (lit "veth")) =
      (strstr path (lit "eth") || strstr path (lit "ens")) := by
  have h := strstr_of_longer path (lit "eth") (lit "veth") (by decide) (by decide) (by decide)
  cases hv : strstr path (lit "veth")
  · simp
  · simp [h hv]

theorem block_hit_reduced (path : List Nat) :
    (strstr path (lit "vda") || strstr path (lit "xvda")) = strstr path (lit "vda") := by
  have h := strstr_of_longer path (lit "vda") (lit "xvda") (by decide) (by decide) (by decide)
  cases hv : strstr path (lit "xvda")
  · simp
  · simp [h hv]

/-- C14: for every result of `popen` and every initial value of the flag,
`detect_virtual_network_devices` returns what the scanner testing only "eth" or "ens"
returns, and `detect_virtual_block_devices` returns what the scanner testing only "vda"
returns; every line that contains "veth" contains "eth", and every line that contains
"xvda" contains "vda". -/
theorem redundant_patterns (file_ptr : Option (List Nat)) (flag : Bool) (l : List Nat) :
    detect_virtual_network_devices file_ptr flag =
      detect_virtual_network_devices_eth_ens file_ptr flag ∧
    detect_virtual_block_devices file_ptr flag =
      detect_virtual_block_devices_vda file_ptr flag ∧
    (lit "veth" <:+: l → lit "eth" <:+: l) ∧
    (lit "xvda" <:+: l → lit "vda" <:+: l) := by
  have hn : (fun path => strstr path (lit "eth") || strstr path (lit "ens") ||
      strstr path (lit "veth")) =
      (fun path => strstr path (lit "eth") || strstr path (lit "ens")) :=
    funext network_hit_reduced
  have hb : (fun path => strstr path (lit "vda") || strstr path (lit "xvda")) =
      (fun path => strstr path (lit "vda")) :=
    funext block_hit_reduced
  refine ⟨?_, ?_, ?_, ?_⟩
  · unfold detect_virtual_network_devices detect_virtual_network_devices_eth_ens
    rw [hn]
  · unfold detect_virtual_block_devices detect_virtual_block_devices_vda
    rw [hb]
  · exact fun h => List.IsInfix.trans (by decide) h
  · exact fun h => List.IsInfix.trans (by decide) h

theorem redundant_patterns_witness :
    detect_virtual_network_devices (some (lit "lo\nveth0\n")) false =
      detect_virtual_network_devices_eth_ens (some (lit "lo\nveth0\n")) false ∧
    lit "eth" <:+: lit "veth0\n" ∧ lit "vda" <:+: lit "xvda1\n" :=
  ⟨(redundant_patterns (some (lit "lo\nveth0\n")) false (lit "veth0\n")).1,
   (redundant_patterns (some (lit "lo\nveth0\n")) false (lit "veth0\n")).2.2.1 (by decide),
   (redundant_patterns (some (lit "lo\nveth0\n")) false (lit "xvda1\n")).2.2.2 (by decide)⟩

/-! ## Lines longer than the array -/

theorem fgets_aux_length_le (s : List Nat) (n : Nat) : (fgets_aux s n).1.length ≤ n := by
  induction s generalizing n with
  | nil => simp [fgets_aux]
  | cons c s ih =>
    unfold fgets_aux
    by_cases hn : n = 0
    · simp [hn]
    · by_cases hc : c = 10
      · simp only [hn, hc, if_false, if_true, List.length_singleton]; omega
      · simp only [hn, hc, if_false, List.length_cons]
        have := ih (n - 1)
        omega

/-- A run of `k` equal bytes other than newline, with room for all of them, is stored
whole; the read goes on into what follows with the room that is left. -/
theorem fgets_aux_replicate (a : Nat) (ha : a ≠ 10) (k n : Nat) (hk : k ≤ n)
    (rest : List Nat) :
    fgets_aux (List.replicate k a ++ rest) n =
      (List.replicate k a ++ (fgets_aux rest (n - k)).1, (fgets_aux rest (n - k)).2) := by
  induction k generalizing n with
  | zero => simp
  | succ k ih =>
    have hn : n ≠ 0 := by omega
    have h := ih (n - 1) (by omega)
    rw [List.replicate_succ, List.cons_append, fgets_aux, if_neg hn, if_neg ha, h]
    have e : n - 1 - k = n - (k + 1) := by omega
    rw [e]
    rfl

/-- A run of bytes other than newline belongs to the line that follows it. -/
theorem lines_replicate_append (a : Nat) (ha : a ≠ 10) (k : Nat) (rest l : List Nat)
    (ls : List (List Nat)) (h : lines rest = l :: ls) :
    lines (List.replicate k a ++ rest) = (List.replicate k a ++ l) :: ls := by
  induction k with
  | zero => simpa using h
  | succ k ih =>
    rw [List.replicate_succ, List.cons_append, lines, if_neg ha, ih]
    rfl

theorem not_sub_of_missing_byte (p l : List Nat) (b : Nat) (hb : b ∈ p) (hl : b ∉ l) :
    ¬ p <:+: l :=
  fun h => hl (h.subset hb)

/-- C13: one `fgets` call into `char path[1035]` stores at most 1034 bytes of any output.
The output of 1033 bytes "a" followed by "eth\n" is a single line of 1037 bytes that
contains "eth"; the first read stores its first 1034 bytes, which end in "e", the second
read stores "th\n", neither piece contains "eth", "ens" or "veth", and
`detect_virtual_network_devices` returns `NO_VTX_NW_DEV_DETECTED` whatever the flag held. -/
theorem long_line_scanned_in_pieces (stream : List Nat) (flag : Bool) :
    (fgets_aux stream (1035 - 1)).1.length ≤ 1034 ∧
    straddling_output.length = 1037 ∧
    lines straddling_output = [straddling_output] ∧
    lit "eth" <:+: straddling_output ∧
    some_line_contains NETWORK_PATTERNS straddling_output ∧
    fgets 1035 straddling_output =
      some (List.replicate 1033 97 ++ [101] ++ [0], lit "th\n") ∧
    fgets 1035 (lit "th\n") = some (lit "th\n" ++ [0], []) ∧
    (∀ p ∈ NETWORK_PATTERNS, ¬ p <:+: List.replicate 1033 97 ++ [101] ∧ ¬ p <:+: lit "th\n") ∧
    detect_virtual_network_devices (some straddling_output) flag =
      Outcome.ret NO_VTX_NW_DEV_DETECTED := by
  have hlines : lines straddling_output = [straddling_output] :=
    lines_replicate_append 97 (by decide) 1033 (lit "eth\n") (lit "eth\n") [] (by decide)
  have htail : lit "eth" ++ [10] = lit "eth\n" := by decide
  have hsub : lit "eth" <:+: straddling_output :=
    ⟨List.replicate 1033 97, [10], by rw [List.append_assoc, htail]; rfl⟩
  have haux : fgets_aux straddling_output 1034 = (List.replicate 1033 97 ++ [101], lit "th\n") := by
    unfold straddling_output
    rw [fgets_aux_replicate 97 (by decide) 1033 1034 (by decide)]
    rfl
  have hmem : ∀ b ∈ List.replicate 1033 97 ++ [101], b = 97 ∨ b = 101 := by
    intro b hb
    rcases List.mem_append.mp hb with h | h
    · exact Or.inl (List.eq_of_mem_replicate h)
    · exact Or.inr (List.mem_singleton.mp h)
  have hpieces : ∀ p ∈ NETWORK_PATTERNS,
      ¬ p <:+: List.replicate 1033 97 ++ [101] ∧ ¬ p <:+: lit "th\n" := by
    intro p hp
    simp only [NETWORK_PATTERNS, List.mem_cons, List.mem_singleton, List.not_mem_nil,
      or_false] at hp
    rcases hp with rfl | rfl | rfl
    · exact ⟨not_sub_of_missing_byte _ _ 116 (by decide)
        (fun h => by rcases hmem 116 h with h | h <;> omega), by decide⟩
    · exact ⟨not_sub_of_missing_byte _ _ 110 (by decide)
        (fun h => by rcases hmem 110 h with h | h <;> omega), by decide⟩
    · exact ⟨not_sub_of_missing_byte _ _ 118 (by decide)
        (fun h => by rcases hmem 118 h with h | h <;> omega), by decide⟩
  have hne : ∀ b ∈ List.replicate 1033 97 ++ [101], b ≠ 0 := by
    intro b hb
    rcases hmem b hb with h | h <;> omega
  have hmiss : ∀ p ∈ NETWORK_PATTERNS,
      strstr (List.replicate 1033 97 ++ [101] ++ [0]) p = false := by
    intro p hp
    have hz : ∀ b ∈ p, b ≠ 0 := by
      revert p
      decide
    rw [← Bool.not_eq_true, strstr_text_iff _ p hne hz]
    exact (hpieces p hp).1
  have hfgets : fgets 1035 straddling_output =
      some (List.replicate 1033 97 ++ [101] ++ [0], lit "th\n") := by
    have hcons : straddling_output = 97 :: (List.replicate 1032 97 ++ lit "eth\n") := rfl
    rw [hcons, fgets, ← hcons]
    simp only [Nat.add_one_sub_one, Nat.reduceSub, haux]
  refine ⟨fgets_aux_length_le stream 1034, ?_, hlines, hsub, ?_, hfgets, by decide, hpieces, ?_⟩
  · have h4 : (lit "eth\n").length = 4 := by decide
    rw [straddling_output, List.length_append, List.length_replicate, h4]
  · exact ⟨straddling_output, by rw [hlines]; exact List.mem_singleton.mpr rfl, lit "eth",
      by decide, hsub⟩
  · have hcons : straddling_output = 97 :: (List.replicate 1032 97 ++ lit "eth\n") := rfl
    have hscan : scan_lines
        (fun path => strstr path (lit "eth") || strstr path (lit "ens") ||
          strstr path (lit "veth")) straddling_output flag = false := by
      rw [hcons, scan_lines_cons, ← hcons, haux]
      simp only [hmiss (lit "eth") (by decide), hmiss (lit "ens") (by decide),
        hmiss (lit "veth") (by decide), Bool.or_self, Bool.false_eq_true, if_false]
      simp [scan_lines_cons, scan_lines_nil, fgets_aux, strstr, find_sub, c_str, lit]
    unfold detect_virtual_network_devices
    simp only [hscan]
    rfl

/-! ## Release of the stream -/

theorem scan_lines_traced_nil (hit : List Nat → Bool) (flag : Bool) :
    scan_lines_traced hit [] flag = (flag, [StreamEvent.fgets_call]) := by
  rw [scan_lines_traced]; simp [fgets]

theorem scan_lines_traced_cons (hit : List Nat → Bool) (c : Nat) (s : List Nat) (flag : Bool) :
    scan_lines_traced hit (c :: s) flag =
      if hit ((fgets_aux (c :: s) 1034).1 ++ [0]) then (true, [StreamEvent.fgets_call])
      else ((scan_lines_traced hit (fgets_aux (c :: s) 1034).2 false).1,
        StreamEvent.fgets_call :: (scan_lines_traced hit (fgets_aux (c :: s) 1034).2 false).2) := by
  rw [scan_lines_traced]; simp [fgets]

/-- The traced loop computes the flag of `scan_lines` and makes one or more `fgets` calls
and no other call. -/
theorem scan_lines_traced_spec (hit : List Nat → Bool) (m : Nat) (s : List Nat) (flag : Bool)
    (hm : s.length ≤ m) :
    (scan_lines_traced hit s flag).1 = scan_lines hit s flag ∧
    ∃ n : Nat, (scan_lines_traced hit s flag).2 = List.replicate (n + 1) StreamEvent.fgets_call := by
  induction m generalizing s flag with
  | zero =>
    have hs : s = [] := List.length_eq_zero.mp (Nat.le_zero.mp hm)
    subst hs
    rw [scan_lines_traced_nil, scan_lines_nil]
    exact ⟨rfl, 0, rfl⟩
  | succ m ih =>
    cases s with
    | nil =>
      rw [scan_lines_traced_nil, scan_lines_nil]
      exact ⟨rfl, 0, rfl⟩
    | cons c t =>
      rw [scan_lines_traced_cons, scan_lines_cons]
      by_cases hh : hit ((fgets_aux (c :: t) 1034).1 ++ [0]) = true
      · rw [if_pos hh, if_pos hh]
        exact ⟨rfl, 0, rfl⟩
      · rw [if_neg hh, if_neg hh]
        have hlt : (fgets_aux (c :: t) 1034).2.length < (c :: t).length :=
          fgets_rest_length 1035 (c :: t) _ _ rfl (by decide)
        have hle : (fgets_aux (c :: t) 1034).2.length ≤ m := by
          simp only [List.length_cons] at hm hlt
          omega
        obtain ⟨h1, n, h2⟩ := ih (fgets_aux (c :: t) 1034).2 false hle
        exact ⟨h1, n + 1, by rw [h2]; rfl⟩

theorem handle_after_reads (n : Nat) :
    (List.replicate n StreamEvent.fgets_call).foldl handle_step HandleState.is_open =
      HandleState.is_open := by
  induction n with
  | zero => rfl
  | succ n ih => rw [List.replicate_succ, List.foldl_cons]; exact ih

/-- Reads followed by one close: one close in all, in last place, and a closed handle. -/
theorem reads_then_close (n : Nat) :
    (List.replicate n StreamEvent.fgets_call ++ [StreamEvent.fclose_call]).count
        StreamEvent.fclose_call = 1 ∧
    (List.replicate n StreamEvent.fgets_call ++ [StreamEvent.fclose_call]).getLast? =
        some StreamEvent.fclose_call ∧
    handle_after (List.replicate n StreamEvent.fgets_call ++ [StreamEvent.fclose_call]) =
        HandleState.closed := by
  refine ⟨?_, ?_, ?_⟩
  · rw [List.count_append, List.count_replicate]
    simp
  · simp
  · unfold handle_after
    rw [List.foldl_append, handle_after_reads]
    rfl

/-- The shape shared by the four scanners: the traced loop, one `fclose` on either branch
of the final test, then `return`. -/
theorem released_once_of_loop (hit : List Nat → Bool) (out : List Nat) (flag : Bool)
    (d n : Int) :
    ((if (!(scan_lines_traced hit out flag).1) = true then
        (Outcome.ret n, (scan_lines_traced hit out flag).2 ++ [StreamEvent.fclose_call])
      else (Outcome.ret d, (scan_lines_traced hit out flag).2 ++ [StreamEvent.fclose_call])).1 =
      if (!scan_lines hit out flag) = true then Outcome.ret n else Outcome.ret d) ∧
    released_once
      (if (!(scan_lines_traced hit out flag).1) = true then
        (Outcome.ret n, (scan_lines_traced hit out flag).2 ++ [StreamEvent.fclose_call])
      else (Outcome.ret d, (scan_lines_traced hit out flag).2 ++ [StreamEvent.fclose_call])) := by
  obtain ⟨h1, k, h2⟩ := scan_lines_traced_spec hit out.length out flag (Nat.le_refl _)
  obtain ⟨c1, c2, c3⟩ := reads_then_close (k + 1)
  rw [h1, h2]
  cases scan_lines hit out flag
  · exact ⟨rfl, ⟨n, rfl⟩, ⟨k, rfl⟩, c1, c2, c3⟩
  · exact ⟨rfl, ⟨d, rfl⟩, ⟨k, rfl⟩, c1, c2, c3⟩

/-- C11: for each of the four scanners, every command output and every initial value of
the flag, the call on an opened stream returns the value of the untraced probe, and its
calls on the stream are one or more `fgets` calls followed by exactly one `fclose`: the
close comes after the last read and before the return, the handle ends closed, and no call
follows the close. -/
theorem stream_released_once (out : List Nat) (flag : Bool) :
    ((detect_virtual_network_devices_traced (some out) flag).1 =
        detect_virtual_network_devices (some out) flag ∧
      released_once (detect_virtual_network_devices_traced (some out) flag)) ∧
    ((detect_virtual_block_devices_traced (some out) flag).1 =
        detect_virtual_block_devices (some out) flag ∧
      released_once (detect_virtual_block_devices_traced (some out) flag)) ∧
    ((check_kernel_modules_traced (some out) flag).1 =
        check_kernel_modules (some out) flag ∧
      released_once (check_kernel_modules_traced (some out) flag)) ∧
    ((detect_virtual_pci_devices_traced (some out) flag).1 =
        detect_virtual_pci_devices (some out) flag ∧
      released_once (detect_virtual_pci_devices_traced (some out) flag)) :=
  ⟨released_once_of_loop _ out flag VTX_NW_DEV_DETECTED NO_VTX_NW_DEV_DETECTED,
   released_once_of_loop _ out flag VTX_BLK_DEV_DETECTED NO_VTX_BLK_DEV_DETECTED,
   released_once_of_loop _ out flag VTX_KERN_MODS_DETECTED NO_VTX_KERN_MODS_DETECTED,
   released_once_of_loop _ out flag VTX_PCI_DEV_DETECTED NO_VTX_PCI_DEV_DETECTED⟩

/-- The three returning paths of the network scanner: an early match ("eth0\n", "lo\n":
one read, then the close), no match ("lo\n": the read of the line, the read that hits end
of file, then the close) and empty output (the read that hits end of file, then the
close); on a failed launch the stream is never opened and no call is made on it. -/
theorem stream_calls_by_path :
    detect_virtual_network_devices_traced (some (lit "eth0\nlo\n")) false =
      (Outcome.ret 3, [StreamEvent.fgets_call, StreamEvent.fclose_call]) ∧
    detect_virtual_network_devices_traced (some (lit "lo\n")) false =
      (Outcome.ret (-3),
        [StreamEvent.fgets_call, StreamEvent.fgets_call, StreamEvent.fclose_call]) ∧
    detect_virtual_network_devices_traced (some []) false =
      (Outcome.ret (-3), [StreamEvent.fgets_call, StreamEvent.fclose_call]) ∧
    detect_virtual_network_devices_traced none false = (Outcome.exit 1, []) := by
  refine ⟨?_, ?_, ?_, rfl⟩ <;>
    simp [detect_virtual_network_devices_traced, scan_lines_traced_cons, scan_lines_traced_nil,
      fgets_aux, strstr, find_sub, c_str, lit, VTX_NW_DEV_DETECTED, NO_VTX_NW_DEV_DETECTED]

end VirtSpy
